import Mathlib

/-!
# Piscine et Poney: row hydration and transactional writes

A shallow embedding of the repositories and models of the Node.js back end
(`src/models/*.js`, `src/repositories/childRepository.js`,
`src/repositories/transportRepository.js`) together with the properties of the
specification that concern them.

JavaScript values are embedded as the small value type `Col`; exceptions are
embedded with `Except JsError`; the storage layer (the `mysql2` pool of
`src/config/database.js`) is embedded as a `Driver` that answers one call at a
time over an explicit state, so that a failure can be placed at any call.
-/

set_option autoImplicit false

namespace PiscinePoney

/-! ## JavaScript values -/

/-- A JavaScript value read from a result row or bound to a statement:
`undefined` (also the value of a property the object does not have), `null`,
a number (identifiers, counts and timestamps are integers) or a string. -/
inductive Col where
  | undefined
  | null
  | num (n : Int)
  | str (s : String)
  deriving DecidableEq, Repr, Inhabited

namespace Col

/-- Truthiness of a value, as tested by `if (v)`, `!v`, `a || b`, `a ? b : c`. -/
def truthy : Col → Bool
  | undefined => false
  | null => false
  | num n => n != 0
  | str s => s != ""

/-- The JavaScript expression `a || b`. -/
def orElse (a b : Col) : Col := if a.truthy then a else b

/-- Conversion of a value inside a template literal. -/
def toStr : Col → String
  | undefined => "undefined"
  | null => "null"
  | num n => toString n
  | str s => s

end Col

/-- A thrown JavaScript error: the name of its class and its message. -/
structure JsError where
  name : String
  message : String
  deriving DecidableEq, Repr, Inhabited

/-- The value of `new Error(message)`. -/
def JsError.mk1 (message : String) : JsError := ⟨"Error", message⟩

/-- A result row of one of the queries: every property that some `fromDatabase`
or repository method reads. A column the query does not select is `undefined`. -/
structure Row where
  id : Col := .undefined
  c_id : Col := .undefined
  t_id : Col := .undefined
  v_id : Col := .undefined
  p_id : Col := .undefined
  a_id : Col := .undefined
  name : Col := .undefined
  email : Col := .undefined
  phone : Col := .undefined
  address : Col := .undefined
  parent_id : Col := .undefined
  parent_name : Col := .undefined
  parent_email : Col := .undefined
  parent_phone : Col := .undefined
  activity_name : Col := .undefined
  activity_address : Col := .undefined
  type : Col := .undefined
  date_start : Col := .undefined
  date_end : Col := .undefined
  pickup_location : Col := .undefined
  activity_id : Col := .undefined
  vehicle_id : Col := .undefined
  available_seats : Col := .undefined
  deriving DecidableEq, Repr, Inhabited

/-- An argument handed to a model constructor: a primitive value, or a
reference to a whole row object (as in `new Activity(row)`). -/
inductive Val where
  | prim (c : Col)
  | obj (r : Row)
  deriving DecidableEq, Repr, Inhabited

/-! ## Models (`src/models`) -/

/-- Instance of `class Activity`: `constructor(id, name, address)`. -/
structure Activity where
  id : Val
  name : Val
  address : Val
  deriving DecidableEq, Repr, Inhabited

/-- The static method `Activity.fromDatabase(row)`. -/
def Activity.fromDatabase (row : Row) : Activity :=
  { id := .prim (row.a_id.orElse row.id)
    name := .prim (row.activity_name.orElse row.name)
    address := .prim (row.activity_address.orElse row.address) }

/-- Instance of `class Parent`: `constructor(id, name, email, phone)`; the
field `children` is initialised to `null` and is not touched by the code
embedded here. -/
structure Parent where
  id : Val
  name : Val
  email : Val
  phone : Val
  deriving DecidableEq, Repr, Inhabited

/-- The static method `Parent.fromDatabase(row)`. -/
def Parent.fromDatabase (row : Row) : Parent :=
  { id := .prim (row.p_id.orElse row.id)
    name := .prim row.name
    email := .prim row.email
    phone := .prim row.phone }

/-- Instance of `class Vehicle`: `constructor(id, parentId, availableSeats)`
with `parent` initialised to `null`. -/
structure Vehicle where
  id : Col
  parentId : Col
  availableSeats : Col
  parent : Option Parent := none
  deriving DecidableEq, Repr, Inhabited

/-- The static method `Vehicle.fromDatabase(row)`. -/
def Vehicle.fromDatabase (row : Row) : Vehicle :=
  { id := row.v_id.orElse row.id
    parentId := row.parent_id
    availableSeats := row.available_seats }

/-- The method `vehicle.setParent(parent)`. -/
def Vehicle.setParent (v : Vehicle) (p : Option Parent) : Vehicle :=
  { v with parent := p }

/-- Instance of `class Transport`, with `activity` and `vehicle` initialised to
`null`. -/
structure Transport where
  id : Col
  type : Col
  dateStart : Col
  dateEnd : Col
  pickupLocation : Col
  activityId : Col
  vehicleId : Col
  activity : Option Activity := none
  vehicle : Option Vehicle := none
  deriving DecidableEq, Repr, Inhabited

/-- The static method `Transport.fromDatabase(row)`. -/
def Transport.fromDatabase (row : Row) : Transport :=
  { id := row.t_id.orElse row.id
    type := row.type
    dateStart := row.date_start
    dateEnd := row.date_end
    pickupLocation := row.pickup_location
    activityId := row.activity_id
    vehicleId := row.vehicle_id }

/-- The method `transport.setActivity(activity)`. -/
def Transport.setActivity (t : Transport) (a : Option Activity) : Transport :=
  { t with activity := a }

/-- The method `transport.setVehicle(vehicle)`. -/
def Transport.setVehicle (t : Transport) (v : Option Vehicle) : Transport :=
  { t with vehicle := v }

/-- Instance of `class Child`: `constructor(id, name, parentId)` with
`activities = []` and `parent = null`. -/
structure Child where
  id : Col
  name : Col
  parentId : Col
  activities : List Activity := []
  parent : Option Parent := none
  deriving DecidableEq, Repr, Inhabited

/-- The method `child.addActivity(activity)`: `this.activities.push(activity)`. -/
def Child.addActivity (c : Child) (a : Activity) : Child :=
  { c with activities := c.activities ++ [a] }

/-- The method `child.setParent(parent)`. -/
def Child.setParent (c : Child) (p : Parent) : Child :=
  { c with parent := some p }

/-- The error raised by evaluating the identifier `Parent` inside
`childModel.js`, which neither declares nor requires it. -/
def parentNotDefined : JsError := ⟨"ReferenceError", "Parent is not defined"⟩

/-- The static method `Child.fromDatabase(row)` of `childModel.js`. Its body is
`return new Parent(row.c_id || row.id, row.name, row.parent_id)`, and
`childModel.js` contains no binding of `Parent` (no `require`, no declaration):
evaluating the callee of the `new` expression raises a `ReferenceError` before
any argument is read, for every row. -/
def Child.fromDatabase (_row : Row) : Except JsError Child :=
  .error parentNotDefined

/-! ## Insertion-ordered maps (`new Map()`) -/

/-- A JavaScript `Map` with primitive keys: entries in insertion order. -/
abbrev JsMap (β : Type) := List (Col × β)

namespace JsMap

variable {β : Type}

/-- The method `map.has(key)`. -/
def has (m : JsMap β) (k : Col) : Bool := m.any fun e => e.1 == k

/-- The method `map.get(key)`; `none` stands for `undefined`. -/
def get (m : JsMap β) (k : Col) : Option β := (m.find? fun e => e.1 == k).map Prod.snd

/-- The method `map.set(key, value)`: an existing key keeps its position. -/
def set (m : JsMap β) (k : Col) (v : β) : JsMap β :=
  if has m k then m.map fun e => if e.1 == k then (k, v) else e else m ++ [(k, v)]

/-- `Array.from(map.values())`. -/
def values (m : JsMap β) : List β := m.map Prod.snd

end JsMap

/-! ## Reading children (`childRepository.js`) -/

/-- The working record `{ child, activities: new Map() }` kept per child id. -/
structure Entry where
  child : Child
  activities : JsMap Activity
  deriving Repr

/-- The error of reading a property of `undefined`. -/
def typeError (what : String) : JsError :=
  ⟨"TypeError", "Cannot read properties of undefined (reading " ++ what ++ ")"⟩

namespace ChildRepository

/-- One iteration of the loop `for (const row of rows)` of `findAll`
(lines 32-54): register the child of an unseen `row.id`, attach its parent
when `row.p_id` is truthy, then add the activity of a truthy `row.a_id` not
yet in the record of that child. -/
def hydrateRow (childMap : JsMap Entry) (row : Row) : Except JsError (JsMap Entry) := do
  let childMap ←
    if !(JsMap.has childMap row.id) then do
      let child ← Child.fromDatabase row
      let childMap := JsMap.set childMap row.id { child := child, activities := [] }
      if row.p_id.truthy then
        let parent := Parent.fromDatabase row
        match JsMap.get childMap row.id with
        | none => throw (typeError "child")
        | some e => pure (JsMap.set childMap row.id { e with child := e.child.setParent parent })
      else pure childMap
    else pure childMap
  if row.a_id.truthy then
    match JsMap.get childMap row.id with
    | none => throw (typeError "activities")
    | some e =>
      if !(JsMap.has e.activities row.a_id) then
        let activity := Activity.fromDatabase row
        pure (JsMap.set childMap row.id
          { child := e.child.addActivity activity
            activities := JsMap.set e.activities row.a_id activity })
      else pure childMap
  else pure childMap

/-- The body of `findAll` after the query (lines 25-57), without the
surrounding `try`/`catch`. -/
def findAllBody (rows : List Row) : Except JsError (List Child) :=
  if rows.isEmpty then pure []
  else do
    let childMap ← rows.foldlM hydrateRow []
    pure ((JsMap.values childMap).map Entry.child)

/-- The method `findAll()` given the outcome of its join query: any error, of
the query or of the hydration, is replaced by `Failed to fetch children`. -/
def findAllRows (q : Except JsError (List Row)) : Except JsError (List Child) :=
  match q >>= findAllBody with
  | .ok children => .ok children
  | .error _ => .error (JsError.mk1 "Failed to fetch children")

/-- The loop of `findById` over the rows (lines 99-106): add each activity
whose truthy `a_id` was not met before. -/
def addActivities : List Row → JsMap Activity → Child → Child
  | [], _, child => child
  | row :: rest, activitiesMap, child =>
    if row.a_id.truthy && !(JsMap.has activitiesMap row.a_id) then
      let activity := Activity.fromDatabase row
      addActivities rest (JsMap.set activitiesMap row.a_id activity) (child.addActivity activity)
    else addActivities rest activitiesMap child

/-- The body of `findById` after the query (lines 85-108); `none` is `null`. -/
def findByIdBody (rows : List Row) : Except JsError (Option Child) :=
  match rows with
  | [] => pure none
  | row0 :: _ => do
    let child ← Child.fromDatabase row0
    let child := if row0.p_id.truthy then child.setParent (Parent.fromDatabase row0) else child
    pure (some (addActivities rows [] child))

/-- The method `findById(id)` given the outcome of its join query: any error
is replaced by `Failed to fetch child with id <id>`. -/
def findByIdRows (id : Col) (q : Except JsError (List Row)) : Except JsError (Option Child) :=
  match q >>= findByIdBody with
  | .ok child => .ok child
  | .error _ => .error (JsError.mk1 ("Failed to fetch child with id " ++ id.toStr))

end ChildRepository

/-! ## The storage layer -/

/-- The SQL statements issued by the two repositories, with their bound
parameters. -/
inductive Stmt where
  | selectChildren
  | selectChildById (id : Col)
  | insertChild (name : Col)
  | insertParentChild (parentId childId : Col)
  | insertChildActivity (childId activityId : Col)
  | updateChild (name id : Col)
  | deleteParentChild (childId : Col)
  | deleteChildActivity (childId : Col)
  | deleteChild (id : Col)
  | selectTransports
  | selectTransportById (id : Col)
  | selectTransportsByActivity (activityId : Col)
  | selectTransportsByParent (parentId : Col)
  | insertVehicleReturning (parentId availableSeats : Col)
  | insertTransport (type dateStart dateEnd pickupLocation activityId vehicleId : Col)
  | deleteTransport (id : Col)
  | deleteVehicle (id : Col)
  | selectChildActivity (childId activityId : Col)
  | selectTransportRow (id : Col)
  | updateTransport (type dateStart dateEnd pickupLocation activityId id : Col)
  | updateVehicleSeats (availableSeats id : Col)
  | selectVehicles (bound : Option Col)
  | selectParents
  deriving DecidableEq, Repr, Inhabited

/-- A call made to the storage layer: `db.query` on the pool, or one of the
methods of a connection obtained from `db.getConnection()`. -/
inductive Call where
  | poolQuery (st : Stmt)
  | getConnection
  | beginTransaction
  | query (st : Stmt)
  | commit
  | rollback
  | release
  deriving DecidableEq, Repr, Inhabited

/-- The first component of what an awaited call resolves to: the array of
rows of a statement that returns rows, or the header of a statement that
writes. The calls that are not statements resolve to a header nobody reads. -/
inductive Reply where
  | rows (rs : List Row)
  | header (insertId affectedRows : Nat)
  deriving DecidableEq, Repr, Inhabited

/-- The property `result.insertId` (`undefined` on an array of rows). -/
def Reply.insertId : Reply → Col
  | .header i _ => .num i
  | .rows _ => .undefined

/-- The test `result.affectedRows > 0` (false when the property is absent). -/
def Reply.affected : Reply → Bool
  | .header _ n => decide (0 < n)
  | .rows _ => false

/-- The storage layer: how it answers a call in a given state, either with a
reply or by rejecting with an error, and the state it is left in. -/
abbrev Driver (σ : Type) := Call → σ → Except JsError Reply × σ

/-- One call issued to the storage layer together with its outcome. -/
structure Event where
  call : Call
  outcome : Except JsError Reply

/-- The state of a run: the state of the storage layer and the calls issued
to it so far with their outcomes, oldest first. -/
structure Sys (σ : Type) where
  store : σ
  trace : List Event := []

/-- The calls issued so far, oldest first. -/
def Sys.calls {σ : Type} (s : Sys σ) : List Call := s.trace.map Event.call

/-- An asynchronous computation of the repositories: from a state to an
outcome (a value, or a thrown error) and the state reached. -/
abbrev Act (σ α : Type) := Sys σ → Except JsError α × Sys σ

section Acts

variable {σ α β : Type}

/-- Issue one call and await its outcome. -/
def call (d : Driver σ) (c : Call) : Act σ Reply := fun s =>
  let r := d c s.store
  (r.1, { store := r.2, trace := s.trace ++ [{ call := c, outcome := r.1 }] })

/-- The call `connection.release()`, which returns nothing. -/
def release (d : Driver σ) (s : Sys σ) : Sys σ := (call d .release s).2

/-- Sequencing of two awaited steps: the second runs when the first did not
throw. -/
def andThen (x : Act σ α) (f : α → Act σ β) : Act σ β := fun s =>
  match x s with
  | (.ok a, s1) => f a s1
  | (.error e, s1) => (.error e, s1)

/-- The block
`try { body } catch (error) { await connection.rollback(); throw error; }
finally { connection.release(); }`. -/
def guarded (d : Driver σ) (body : Act σ α) : Act σ α := fun s =>
  match body s with
  | (.ok a, s1) => (.ok a, release d s1)
  | (.error e, s1) =>
    match call d .rollback s1 with
    | (.ok _, s2) => (.error e, release d s2)
    | (.error e2, s2) => (.error e2, release d s2)

/-- The opening of every write method:
`const connection = await db.getConnection(); await connection.beginTransaction();`
followed by the guarded block. The two opening calls stand outside the
inner `try`. -/
def transaction (d : Driver σ) (body : Act σ α) : Act σ α :=
  andThen (call d .getConnection) fun _ =>
  andThen (call d .beginTransaction) fun _ =>
  guarded d body

/-- The outer `try { ... } catch (error) { console.error(...); throw new Error(msg); }`
of the methods of `childRepository.js`. -/
def rethrowAs (msg : String) (x : Act σ α) : Act σ α := fun s =>
  match x s with
  | (.ok a, s1) => (.ok a, s1)
  | (.error _, s1) => (.error (JsError.mk1 msg), s1)

end Acts

/-! ## Write inputs -/

/-- An object of which the repositories read only the property `id`
(`child.parent`, an element of `child.activities`, `transportData.activity`,
`transportData.vehicle.parent`). -/
structure EntityRef where
  id : Col
  deriving DecidableEq, Repr, Inhabited

/-- The `Child` instance handed to `create` and `update`: `parent` is `none`
when the property is `null`. -/
structure ChildInput where
  id : Col := .undefined
  name : Col := .undefined
  parent : Option EntityRef := none
  activities : List EntityRef := []
  deriving DecidableEq, Repr, Inhabited

/-- The property `transportData.vehicle`. -/
structure VehicleInput where
  parent : Option EntityRef := none
  availableSeats : Col := .undefined
  deriving DecidableEq, Repr, Inhabited

/-- The object handed to `transportRepository.create`; an absent nested object
is `none`. -/
structure TransportInput where
  type : Col := .undefined
  dateStart : Col := .undefined
  dateEnd : Col := .undefined
  pickupLocation : Col := .undefined
  activity : Option EntityRef := none
  vehicle : Option VehicleInput := none
  deriving DecidableEq, Repr, Inhabited

/-! ## `childRepository.js` over the storage layer -/

namespace ChildRepository

variable {σ : Type}

/-- The rows bound by `const [rows] = await db.query(...)` in the child
queries; a reply that is not an array of rows makes the body throw. -/
def rowsOf : Reply → Except JsError (List Row)
  | .rows rs => .ok rs
  | .header _ _ => .error ⟨"TypeError", "rows is not iterable"⟩

/-- The method `findAll()`. -/
def findAll (d : Driver σ) : Act σ (List Child) := fun s =>
  let r := call d (.poolQuery .selectChildren) s
  (findAllRows (r.1 >>= rowsOf), r.2)

/-- The method `findById(id)`. -/
def findById (d : Driver σ) (id : Col) : Act σ (Option Child) := fun s =>
  let r := call d (.poolQuery (.selectChildById id)) s
  (findByIdRows id (r.1 >>= rowsOf), r.2)

/-- The loop `for (const activity of child.activities)` inserting one
`ChildActivity` row per element. -/
def insertActivities (d : Driver σ) (childId : Col) : List EntityRef → Act σ Unit
  | [] => fun s => (.ok (), s)
  | activity :: rest =>
    andThen (call d (.query (.insertChildActivity childId activity.id))) fun _ =>
    insertActivities d childId rest

/-- The optional statement `INSERT INTO ParentChild` of `create` and `update`,
issued when `child.parent` is truthy. -/
def insertParent (d : Driver σ) (parent : Option EntityRef) (childId : Col) : Act σ Unit :=
  match parent with
  | none => fun s => (.ok (), s)
  | some p => andThen (call d (.query (.insertParentChild p.id childId))) fun _ s => (.ok (), s)

/-- The inner `try` block of `create` (lines 245-271). -/
def createBody (d : Driver σ) (child : ChildInput) : Act σ (Option Child) :=
  andThen (call d (.query (.insertChild child.name))) fun result =>
  let childId := result.insertId
  andThen (insertParent d child.parent childId) fun _ =>
  andThen (insertActivities d childId child.activities) fun _ =>
  andThen (call d .commit) fun _ =>
  findById d childId

/-- The method `create(child)`. -/
def create (d : Driver σ) (child : ChildInput) : Act σ (Option Child) :=
  rethrowAs "Failed to create child" (transaction d (createBody d child))

/-- The inner `try` block of `update` (lines 297-329). -/
def updateBody (d : Driver σ) (child : ChildInput) : Act σ (Option Child) :=
  andThen (call d (.query (.updateChild child.name child.id))) fun _ =>
  andThen (call d (.query (.deleteParentChild child.id))) fun _ =>
  andThen (insertParent d child.parent child.id) fun _ =>
  andThen (call d (.query (.deleteChildActivity child.id))) fun _ =>
  andThen (insertActivities d child.id child.activities) fun _ =>
  andThen (call d .commit) fun _ =>
  findById d child.id

/-- The method `update(child)`. -/
def update (d : Driver σ) (child : ChildInput) : Act σ (Option Child) :=
  rethrowAs ("Failed to update child with id " ++ child.id.toStr)
    (transaction d (updateBody d child))

/-- The inner `try` block of `delete` (lines 355-363). -/
def deleteBody (d : Driver σ) (id : Col) : Act σ Bool :=
  andThen (call d (.query (.deleteParentChild id))) fun _ =>
  andThen (call d (.query (.deleteChildActivity id))) fun _ =>
  andThen (call d (.query (.deleteChild id))) fun _ =>
  andThen (call d .commit) fun _ s => (.ok true, s)

/-- The method `delete(id)`. -/
def delete (d : Driver σ) (id : Col) : Act σ Bool :=
  rethrowAs ("Failed to delete child with id " ++ id.toStr) (transaction d (deleteBody d id))

/-- The inner `try` block of `setParent` (lines 443-457). -/
def setParentBody (d : Driver σ) (childId parentId : Col) : Act σ (Option Child) :=
  andThen (call d (.query (.deleteParentChild childId))) fun _ =>
  andThen (call d (.query (.insertParentChild parentId childId))) fun _ =>
  andThen (call d .commit) fun _ =>
  findById d childId

/-- The method `setParent(childId, parentId)`. -/
def setParent (d : Driver σ) (childId parentId : Col) : Act σ (Option Child) :=
  rethrowAs "Failed to set parent for child" (transaction d (setParentBody d childId parentId))

end ChildRepository

/-! ## `transportRepository.js` -/

namespace TransportRepository

variable {σ : Type}

/-- The error of calling a method on `null`. -/
def nullError (what : String) : JsError :=
  ⟨"TypeError", "Cannot read properties of null (reading " ++ what ++ ")"⟩

/-- The hydration of one row in `findAll` and `findById` (lines 28-36 and
70-79): each nested object is built when its id column is truthy, and
`vehicle.setParent(parent)` is called on the vehicle, which throws when the
vehicle is `null`. -/
def hydrate (row : Row) : Except JsError Transport :=
  let activity := if row.a_id.truthy then some (Activity.fromDatabase row) else none
  let parent := if row.p_id.truthy then some (Parent.fromDatabase row) else none
  let vehicle := if row.v_id.truthy then some (Vehicle.fromDatabase row) else none
  match vehicle with
  | none => .error (nullError "setParent")
  | some v =>
    .ok (((Transport.fromDatabase row).setActivity activity).setVehicle (some (v.setParent parent)))

/-- The hydration of one row in `findByActivityId` (lines 108-116): the
activity and the parent are built by `new Activity(row)` and `new Parent(row)`,
so the row object is their first constructor argument and the other
arguments are `undefined`. -/
def hydrateByActivity (row : Row) : Transport :=
  let activity : Activity :=
    { id := .obj row, name := .prim .undefined, address := .prim .undefined }
  let parent : Option Parent :=
    if row.p_id.truthy then
      some { id := .obj row, name := .prim .undefined, email := .prim .undefined,
             phone := .prim .undefined }
    else none
  let vehicle := (Vehicle.fromDatabase row).setParent parent
  ((Transport.fromDatabase row).setActivity (some activity)).setVehicle (some vehicle)

/-- The hydration of one row in `findByParentId` (lines 149-160). -/
def hydrateByParent (row : Row) : Transport :=
  let activity := Activity.fromDatabase row
  let parent := Parent.fromDatabase row
  let vehicle := (Vehicle.fromDatabase row).setParent (some parent)
  ((Transport.fromDatabase row).setActivity (some activity)).setVehicle (some vehicle)

/-- The method `findAll()` given the outcome of its query: `rows?.length > 0`
selects the mapping, anything else yields `[]`; any error is replaced by
`Failed to fetch transports`. -/
def findAllRows (q : Except JsError Reply) : Except JsError (List Transport) :=
  match (q >>= fun reply =>
      match reply with
      | .rows rs => if 0 < rs.length then rs.mapM hydrate else pure []
      | .header _ _ => pure []) with
  | .ok ts => .ok ts
  | .error _ => .error (JsError.mk1 "Failed to fetch transports")

/-- The method `findById(id)` given the outcome of its query; `none` is
`null`. On a reply without rows `rows[0]` is `undefined` and reading
`row.a_id` throws. Any error is replaced by `Failed to fetch transport`. -/
def findByIdRows (q : Except JsError Reply) : Except JsError (Option Transport) :=
  match (q >>= fun reply =>
      match reply with
      | .rows [] => pure none
      | .rows (row :: _) => (hydrate row).map some
      | .header _ _ => throw (typeError "a_id")) with
  | .ok t => .ok t
  | .error _ => .error (JsError.mk1 "Failed to fetch transport")

/-- The method `findByActivityId(activityId)` given the outcome of its query. -/
def findByActivityIdRows (q : Except JsError Reply) : Except JsError (List Transport) :=
  match (q >>= fun reply =>
      match reply with
      | .rows rs => if 0 < rs.length then pure (rs.map hydrateByActivity) else pure []
      | .header _ _ => pure []) with
  | .ok ts => .ok ts
  | .error _ => .error (JsError.mk1 "Failed to fetch transports for activity")

/-- The method `findByParentId(parentId)` given the outcome of its query; it
has no `try`/`catch`, so the error of the query is the error of the method. -/
def findByParentIdRows (q : Except JsError Reply) : Except JsError (List Transport) :=
  q >>= fun reply =>
    match reply with
    | .rows rs => if 0 < rs.length then pure (rs.map hydrateByParent) else pure []
    | .header _ _ => pure []

/-- The method `findAll()`. -/
def findAll (d : Driver σ) : Act σ (List Transport) := fun s =>
  let r := call d (.poolQuery .selectTransports) s
  (findAllRows r.1, r.2)

/-- The method `findById(id)`. -/
def findById (d : Driver σ) (id : Col) : Act σ (Option Transport) := fun s =>
  let r := call d (.poolQuery (.selectTransportById id)) s
  (findByIdRows r.1, r.2)

/-- The method `findByActivityId(activityId)`. -/
def findByActivityId (d : Driver σ) (activityId : Col) : Act σ (List Transport) := fun s =>
  let r := call d (.poolQuery (.selectTransportsByActivity activityId)) s
  (findByActivityIdRows r.1, r.2)

/-- The method `findByParentId(parentId)`. -/
def findByParentId (d : Driver σ) (parentId : Col) : Act σ (List Transport) := fun s =>
  let r := call d (.poolQuery (.selectTransportsByParent parentId)) s
  (findByParentIdRows r.1, r.2)

/-- The inner `try` block of `create` (lines 176-195) up to the commit; its
value is `transportResult.insertId`. Reading `.id` of an absent nested object
throws inside the block, as does `vehicleResult[0].id` when the reply has no
first row. -/
def createBody (d : Driver σ) (data : TransportInput) : Act σ Col :=
  match data.vehicle with
  | none => fun s => (.error (typeError "parent"), s)
  | some vehicle =>
    match vehicle.parent with
    | none => fun s => (.error (typeError "id"), s)
    | some parent =>
      andThen (call d (.query (.insertVehicleReturning parent.id vehicle.availableSeats)))
        fun vehicleResult =>
        match vehicleResult with
        | .rows (first :: _) =>
          let vehicleId := first.id
          match data.activity with
          | none => fun s => (.error (typeError "id"), s)
          | some activity =>
            andThen (call d (.query (.insertTransport data.type data.dateStart data.dateEnd
              data.pickupLocation activity.id vehicleId))) fun transportResult =>
            andThen (call d .commit) fun _ s => (.ok transportResult.insertId, s)
        | _ => fun s => (.error (typeError "id"), s)

/-- The method `create(transportData)`. There is no outer `try`: an error of
the block is thrown to the caller as it is, after the rollback. The final
`return this.findById(...)` is not awaited inside the block, so its query is
issued before the `finally` and its outcome is the outcome of the method. -/
def create (d : Driver σ) (data : TransportInput) : Act σ (Option Transport) :=
  andThen (call d .getConnection) fun _ =>
  andThen (call d .beginTransaction) fun _ s =>
    match createBody d data s with
    | (.ok insertId, s1) =>
      let r := findById d insertId s1
      (r.1, release d r.2)
    | (.error e, s1) =>
      match call d .rollback s1 with
      | (.ok _, s2) => (.error e, release d s2)
      | (.error e2, s2) => (.error e2, release d s2)

/-- The inner `try` block of `delete` (lines 293-306). -/
def deleteBody (d : Driver σ) (id vehicleId : Col) : Act σ Bool :=
  andThen (call d (.query (.deleteTransport id))) fun transportResult =>
  andThen (if transportResult.affected && vehicleId.truthy then
      andThen (call d (.query (.deleteVehicle vehicleId))) fun _ s => (.ok (), s)
    else fun s => (.ok (), s)) fun _ =>
  andThen (call d .commit) fun _ s => (.ok transportResult.affected, s)

/-- The method `delete(id)`. -/
def delete (d : Driver σ) (id : Col) : Act σ Bool :=
  andThen (findById d id) fun transport =>
    match transport with
    | none => fun s => (.ok false, s)
    | some t =>
      let vehicleId := match t.vehicle with
        | some v => v.id
        | none => Col.null
      transaction d (deleteBody d id vehicleId)

end TransportRepository

/-! ## A relational store with transactions -/

/-- A row of table `Child`. -/
structure ChildRec where
  id : Nat
  name : Col
  deriving DecidableEq, Repr, Inhabited

/-- A row of table `Parent`. -/
structure ParentRec where
  id : Nat
  name : Col
  email : Col
  phone : Col
  deriving DecidableEq, Repr, Inhabited

/-- A row of table `Activity`. -/
structure ActivityRec where
  id : Nat
  name : Col
  address : Col
  deriving DecidableEq, Repr, Inhabited

/-- A row of table `Vehicle`. -/
structure VehicleRec where
  id : Nat
  parent_id : Col
  available_seats : Col
  deriving DecidableEq, Repr, Inhabited

/-- A row of table `Transport`. -/
structure TransportRec where
  id : Nat
  type : Col
  date_start : Col
  date_end : Col
  pickup_location : Col
  activity_id : Col
  vehicle_id : Col
  deriving DecidableEq, Repr, Inhabited

/-- The persisted state: five base tables and the two association tables
`ParentChild (parent_id, child_id)` and `ChildActivity (child_id, activity_id)`. -/
structure Tables where
  child : List ChildRec := []
  parent : List ParentRec := []
  activity : List ActivityRec := []
  vehicle : List VehicleRec := []
  transport : List TransportRec := []
  parentChild : List (Col × Col) := []
  childActivity : List (Col × Col) := []
  deriving DecidableEq, Repr, Inhabited

namespace Tables

/-- The SQL comparison `a = b` of two values: `NULL` (and an absent value)
equals nothing. -/
def sqlEq : Col → Col → Bool
  | .num m, .num n => m == n
  | .str s, .str t => s == t
  | _, _ => false

/-- The comparison `column = ?` of a key column with a bound value. -/
def idIs (id : Nat) (c : Col) : Bool := sqlEq (Col.num id) c

/-- The identifier generated for the next inserted row. -/
def nextId (ids : List Nat) : Nat := ids.foldl max 0 + 1

/-- The right-hand side of a `LEFT JOIN`: the matches, or one absent match. -/
def leftJoin {β : Type} (found : List β) : List (Option β) :=
  if found.isEmpty then [none] else found.map some

/-- The value of a column of an optional joined row (`null` when absent). -/
def colOf {β : Type} (f : β → Col) : Option β → Col
  | some b => f b
  | none => Col.null

/-- The rows of the child join (lines 13-23 of `childRepository.js`) for one
row of `Child`. -/
def childRows (t : Tables) (c : ChildRec) : List Row :=
  (leftJoin (t.parentChild.filter fun pc => idIs c.id pc.2)).flatMap fun pc =>
  (leftJoin (match pc with
    | none => []
    | some pc => t.parent.filter fun p => idIs p.id pc.1)).flatMap fun p =>
  (leftJoin (t.childActivity.filter fun ca => idIs c.id ca.1)).flatMap fun ca =>
  (leftJoin (match ca with
    | none => []
    | some ca => t.activity.filter fun a => idIs a.id ca.2)).map fun a =>
    { id := Col.num c.id, name := c.name
      p_id := colOf (fun p => Col.num p.id) p
      parent_name := colOf ParentRec.name p
      parent_email := colOf ParentRec.email p
      parent_phone := colOf ParentRec.phone p
      a_id := colOf (fun a => Col.num a.id) a
      activity_name := colOf ActivityRec.name a
      activity_address := colOf ActivityRec.address a }

/-- The rows of the transport join (lines 14-24 of `transportRepository.js`)
for one row of `Transport`; `aliased` tells whether the parent columns are
selected as `parent_name`, `parent_email`, `parent_phone` (`findByParentId`)
or as `name`, `email`, `phone` (the other three queries). -/
def transportRows (t : Tables) (aliased : Bool) (tr : TransportRec) : List Row :=
  (t.activity.filter fun a => idIs a.id tr.activity_id).flatMap fun a =>
  (t.vehicle.filter fun v => idIs v.id tr.vehicle_id).flatMap fun v =>
  (leftJoin (t.parent.filter fun p => idIs p.id v.parent_id)).map fun p =>
    let base : Row :=
      { id := Col.num tr.id, type := tr.type, date_start := tr.date_start
        date_end := tr.date_end, pickup_location := tr.pickup_location
        activity_id := tr.activity_id, vehicle_id := tr.vehicle_id
        a_id := Col.num a.id, activity_name := a.name, activity_address := a.address
        v_id := Col.num v.id, parent_id := v.parent_id
        available_seats := v.available_seats
        p_id := colOf (fun p => Col.num p.id) p }
    if aliased then
      { base with parent_name := colOf ParentRec.name p
                  parent_email := colOf ParentRec.email p
                  parent_phone := colOf ParentRec.phone p }
    else
      { base with name := colOf ParentRec.name p
                  email := colOf ParentRec.email p
                  phone := colOf ParentRec.phone p }

/-- The effect of one statement on the tables and the reply it produces. -/
def exec (st : Stmt) (t : Tables) : Reply × Tables :=
  match st with
  | .selectChildren => (.rows (t.child.flatMap (childRows t)), t)
  | .selectChildById id =>
    (.rows ((t.child.filter fun c => idIs c.id id).flatMap (childRows t)), t)
  | .insertChild name =>
    let n := nextId (t.child.map ChildRec.id)
    (.header n 1, { t with child := t.child ++ [{ id := n, name := name }] })
  | .insertParentChild parentId childId =>
    (.header 0 1, { t with parentChild := t.parentChild ++ [(parentId, childId)] })
  | .insertChildActivity childId activityId =>
    (.header 0 1, { t with childActivity := t.childActivity ++ [(childId, activityId)] })
  | .updateChild name id =>
    (.header 0 (t.child.filter fun c => idIs c.id id).length,
      { t with child := t.child.map fun c => if idIs c.id id then { c with name := name } else c })
  | .deleteParentChild childId =>
    (.header 0 (t.parentChild.filter fun pc => sqlEq pc.2 childId).length,
      { t with parentChild := t.parentChild.filter fun pc => !(sqlEq pc.2 childId) })
  | .deleteChildActivity childId =>
    (.header 0 (t.childActivity.filter fun ca => sqlEq ca.1 childId).length,
      { t with childActivity := t.childActivity.filter fun ca => !(sqlEq ca.1 childId) })
  | .deleteChild id =>
    (.header 0 (t.child.filter fun c => idIs c.id id).length,
      { t with child := t.child.filter fun c => !(idIs c.id id) })
  | .selectTransports => (.rows (t.transport.flatMap (transportRows t false)), t)
  | .selectTransportById id =>
    (.rows ((t.transport.filter fun tr => idIs tr.id id).flatMap (transportRows t false)), t)
  | .selectTransportsByActivity activityId =>
    (.rows ((t.transport.filter fun tr => sqlEq tr.activity_id activityId).flatMap
      (transportRows t false)), t)
  | .selectTransportsByParent parentId =>
    (.rows ((t.transport.flatMap (transportRows t true)).filter fun r => sqlEq r.parent_id parentId), t)
  | .insertVehicleReturning parentId availableSeats =>
    let n := nextId (t.vehicle.map VehicleRec.id)
    (.rows [{ id := Col.num n }],
      { t with vehicle := t.vehicle ++
          [{ id := n, parent_id := parentId, available_seats := availableSeats }] })
  | .insertTransport type dateStart dateEnd pickupLocation activityId vehicleId =>
    let n := nextId (t.transport.map TransportRec.id)
    (.header n 1,
      { t with transport := t.transport ++
          [{ id := n, type := type, date_start := dateStart, date_end := dateEnd
             pickup_location := pickupLocation, activity_id := activityId
             vehicle_id := vehicleId }] })
  | .deleteTransport id =>
    (.header 0 (t.transport.filter fun tr => idIs tr.id id).length,
      { t with transport := t.transport.filter fun tr => !(idIs tr.id id) })
  | .deleteVehicle id =>
    (.header 0 (t.vehicle.filter fun v => idIs v.id id).length,
      { t with vehicle := t.vehicle.filter fun v => !(idIs v.id id) })
  | .selectChildActivity childId activityId =>
    (.rows ((t.childActivity.filter fun ca => sqlEq ca.1 childId && sqlEq ca.2 activityId).map
      fun ca => { activity_id := ca.2 }), t)
  | .selectTransportRow id =>
    (.rows ((t.transport.filter fun tr => idIs tr.id id).map fun tr =>
      { id := Col.num tr.id, type := tr.type, date_start := tr.date_start
        date_end := tr.date_end, pickup_location := tr.pickup_location
        activity_id := tr.activity_id, vehicle_id := tr.vehicle_id }), t)
  | .updateTransport type dateStart dateEnd pickupLocation activityId id =>
    (.header 0 (t.transport.filter fun tr => idIs tr.id id).length,
      { t with transport := t.transport.map fun tr =>
          if idIs tr.id id then
            { tr with type := type, date_start := dateStart, date_end := dateEnd
                      pickup_location := pickupLocation, activity_id := activityId }
          else tr })
  | .updateVehicleSeats availableSeats id =>
    (.header 0 (t.vehicle.filter fun v => idIs v.id id).length,
      { t with vehicle := t.vehicle.map fun v =>
          if idIs v.id id then { v with available_seats := availableSeats } else v })
  | .selectVehicles _ =>
    (.rows (t.vehicle.flatMap fun v =>
      (t.parent.filter fun p => idIs p.id v.parent_id).map fun p =>
        { id := Col.num v.id, parent_id := v.parent_id, available_seats := v.available_seats
          p_id := Col.num p.id, parent_name := p.name, parent_email := p.email
          parent_phone := p.phone }), t)
  | .selectParents =>
    (.rows (t.parent.map fun p =>
      { p_id := Col.num p.id, name := p.name, email := p.email, phone := p.phone }), t)

end Tables

/-- The state of the transactional store: the current tables, the tables
saved when the open transaction began (`none` outside a transaction), and the
script of simulated failures, one entry per awaited call: `some e` makes the
next call reject with `e` and leave the tables as they are. -/
structure World where
  tables : Tables := {}
  snapshot : Option Tables := none
  faults : List (Option JsError) := []
  deriving DecidableEq, Repr, Inhabited

/-- The transactional store as a storage layer. `beginTransaction` saves the
tables, `rollback` restores them, `commit` discards the saved copy; a
statement runs on the current tables. `release` consumes no script entry. -/
def sqlDriver : Driver World := fun c w =>
  match c with
  | .release => (.ok (.header 0 0), w)
  | _ =>
    let w1 : World := { w with faults := w.faults.tail }
    match w.faults.head? with
    | some (some e) => (.error e, w1)
    | _ =>
      match c with
      | .poolQuery st =>
        let r := Tables.exec st w1.tables
        (.ok r.1, { w1 with tables := r.2 })
      | .query st =>
        let r := Tables.exec st w1.tables
        (.ok r.1, { w1 with tables := r.2 })
      | .beginTransaction => (.ok (.header 0 0), { w1 with snapshot := some w1.tables })
      | .commit => (.ok (.header 0 0), { w1 with snapshot := none })
      | .rollback =>
        (.ok (.header 0 0), { w1 with tables := w1.snapshot.getD w1.tables, snapshot := none })
      | _ => (.ok (.header 0 0), w1)

/-- The initial state of a run on a store. -/
def Sys.init {σ : Type} (store : σ) : Sys σ := { store := store, trace := [] }

/-! ## Further repository methods -/

/-- The method `addActivity(childId, activityId)` of `childRepository.js`
(lines 384-407): the association is inserted when the existence query
returns no row; both statements go through the pool, outside any
transaction. -/
def ChildRepository.addActivity {σ : Type} (d : Driver σ) (childId activityId : Col) :
    Act σ (Option Child) :=
  rethrowAs "Failed to add activity to child"
    (andThen (call d (.poolQuery (.selectChildActivity childId activityId))) fun existingRows =>
      andThen
        (match existingRows with
          | .rows [] =>
            andThen (call d (.poolQuery (.insertChildActivity childId activityId)))
              fun _ s => (.ok (), s)
          | _ => fun s => (.ok (), s)) fun _ =>
      ChildRepository.findById d childId)

/-- The inner `try` block of `transportRepository.update` (lines 231-267) up
to the commit. Reading `transportData.activity.id` throws when `activity` is
`null`; the vehicle is updated when `transportData.vehicle` and the stored
`vehicle_id` are both truthy. -/
def TransportRepository.updateBody {σ : Type} (d : Driver σ) (id vehicleId : Col)
    (data : TransportInput) : Act σ Unit :=
  andThen
    (match data.activity with
      | none => fun s => (.error (TransportRepository.nullError "id"), s)
      | some activity =>
        andThen (call d (.query (.updateTransport data.type data.dateStart data.dateEnd
          data.pickupLocation activity.id id))) fun _ s => (.ok (), s)) fun _ =>
  andThen
    (match data.vehicle with
      | some vehicle =>
        if vehicleId.truthy then
          andThen (call d (.query (.updateVehicleSeats vehicle.availableSeats vehicleId)))
            fun _ s => (.ok (), s)
        else fun s => (.ok (), s)
      | none => fun s => (.ok (), s)) fun _ =>
  andThen (call d .commit) fun _ s => (.ok (), s)

/-- The method `update(id, transportData)` of `transportRepository.js`: the
stored `vehicle_id` is read through the pool first (`Transport not found` when
there is no row), then the unit runs as in `create`, without outer `try`. -/
def TransportRepository.update {σ : Type} (d : Driver σ) (id : Col) (data : TransportInput) :
    Act σ (Option Transport) :=
  andThen (call d (.poolQuery (.selectTransportRow id))) fun transportRows =>
    match transportRows with
    | .rows [] => fun s => (.error (JsError.mk1 "Transport not found"), s)
    | .header _ _ => fun s => (.error (typeError "vehicle_id"), s)
    | .rows (first :: _) =>
      let vehicleId := first.vehicle_id
      andThen (call d .getConnection) fun _ =>
      andThen (call d .beginTransaction) fun _ s =>
        match TransportRepository.updateBody d id vehicleId data s with
        | (.ok _, s1) =>
          let r := TransportRepository.findById d id s1
          (r.1, release d r.2)
        | (.error e, s1) =>
          match call d .rollback s1 with
          | (.ok _, s2) => (.error e, release d s2)
          | (.error e2, s2) => (.error e2, release d s2)

namespace VehicleRepository

/-- The body of `findById(id)` of `vehicleRepository.js` after its query
(lines 51-60); `none` is `null`. -/
def findByIdRows (q : Except JsError Reply) : Except JsError (Option Vehicle) :=
  match (q >>= fun reply =>
      match reply with
      | .rows [] => pure none
      | .rows (row :: _) =>
        pure (some ((Vehicle.fromDatabase row).setParent (some (Parent.fromDatabase row))))
      | .header _ _ => throw (typeError "p_id")) with
  | .ok v => .ok v
  | .error _ => .error (JsError.mk1 "Failed to fetch vehicle")

/-- The method `findById(id)` of `vehicleRepository.js`: the query text is the
one of `findAll`, a join of `Vehicle` and `Parent` without `WHERE` clause and
without placeholder, so the bound `id` selects nothing. -/
def findById {σ : Type} (d : Driver σ) (id : Col) : Act σ (Option Vehicle) := fun s =>
  let r := call d (.poolQuery (.selectVehicles (some id))) s
  (findByIdRows r.1, r.2)

end VehicleRepository

namespace ParentRepository

/-- The body of `findAll()` of `parentRepository.js` after its query (line
19): `rows[0].map(...)` is applied to the first row, an object without a
method `map`, or to `undefined` when there is no row. There is no
`try`/`catch`. -/
def findAllRows (q : Except JsError Reply) : Except JsError (List Parent) :=
  q >>= fun reply =>
    match reply with
    | .rows (_ :: _) => throw ⟨"TypeError", "rows[0].map is not a function"⟩
    | .rows [] => throw (typeError "map")
    | .header _ _ => throw (typeError "map")

/-- The method `findAll()` of `parentRepository.js`. -/
def findAll {σ : Type} (d : Driver σ) : Act σ (List Parent) := fun s =>
  let r := call d (.poolQuery .selectParents) s
  (findAllRows r.1, r.2)

end ParentRepository

/-! ## Predicates on traces -/

/-- Whether the event is a statement sent on a connection and rejected. -/
def Event.failedStatement (ev : Event) : Bool :=
  match ev.call, ev.outcome with
  | .query _, .error _ => true
  | _, _ => false

/-- No statement of the trace was rejected. -/
def NoFailedStatement (tr : List Event) : Prop := ∀ ev ∈ tr, ev.failedStatement = false

/-- An action that adds no rejected statement to the trace when it returns a
value. -/
def Sound {σ α : Type} (x : Act σ α) : Prop :=
  ∀ s a s1, x s = (.ok a, s1) → NoFailedStatement s.trace → NoFailedStatement s1.trace

/-- Whether some statement sent on a connection during the run was
rejected. -/
def Sys.statementFailed {σ : Type} (s : Sys σ) : Bool := s.trace.any Event.failedStatement

/-- Whether the event is the `DELETE FROM Transport` statement answered with
no affected row. -/
def Event.reportsNoRow (ev : Event) : Bool :=
  match ev.call, ev.outcome with
  | .query (.deleteTransport _), .ok r => !r.affected
  | _, _ => false

/-- Whether the event is a `DELETE FROM Vehicle` statement. -/
def Event.isVehicleDelete (ev : Event) : Bool :=
  match ev.call with
  | .query (.deleteVehicle _) => true
  | _ => false

/-- Whether the event is a rejected `commit`. -/
def Event.failedCommit (ev : Event) : Bool :=
  match ev.call, ev.outcome with
  | .commit, .error _ => true
  | _, _ => false

/-! ## Sample data -/

/-- The storage error used in the examples. -/
def storageError : JsError := ⟨"Error", "ER_DATA_TOO_LONG"⟩

/-- The store of the end-to-end scenario: activity 1 (Swimming), parent 1
(J. Doe), vehicle 1 of that parent with four seats, transport 1 using them. -/
def scenarioTables : Tables :=
  { activity := [{ id := 1, name := .str "Swimming", address := .str "Pool Rd" }]
    parent := [{ id := 1, name := .str "J. Doe", email := .str "j@x.com"
                 phone := .str "0612345678" }]
    vehicle := [{ id := 1, parent_id := .num 1, available_seats := .num 4 }]
    transport := [{ id := 1, type := .str "OUTWARD", date_start := .num 100
                    date_end := .num 200, pickup_location := .str "School"
                    activity_id := .num 1, vehicle_id := .num 1 }] }

/-- The transactional store in a race: another session deletes every
transport while this one obtains its connection. -/
def racingDriver : Driver World := fun c w =>
  match c with
  | .getConnection => sqlDriver c { w with tables := { w.tables with transport := [] } }
  | _ => sqlDriver c w

/-- A joined row of child 1 (Tom, parent 7) with activity 10. -/
def tomSwimming : Row :=
  { id := .num 1, name := .str "Tom"
    p_id := .num 7, parent_name := .str "J. Doe", parent_email := .str "j@x.com"
    parent_phone := .str "0612345678"
    a_id := .num 10, activity_name := .str "Swimming", activity_address := .str "Pool Rd" }

/-- A joined row of the same child with activity 11. -/
def tomRiding : Row :=
  { tomSwimming with
    a_id := .num 11, activity_name := .str "Riding", activity_address := .str "Stable Ln" }

/-- A joined row of child 2 (Ann), without parent and without activity. -/
def annAlone : Row :=
  { id := .num 2, name := .str "Ann"
    p_id := .null, parent_name := .null, parent_email := .null, parent_phone := .null
    a_id := .null, activity_name := .null, activity_address := .null }

/-- The joined row of the transport of the end-to-end scenario: activity
Swimming at Pool Rd, a vehicle of parent J. Doe with four seats. -/
def outwardRow : Row :=
  { id := .num 1, type := .str "OUTWARD", date_start := .num 100, date_end := .num 200
    pickup_location := .str "School", activity_id := .num 1, vehicle_id := .num 1
    a_id := .num 1, activity_name := .str "Swimming", activity_address := .str "Pool Rd"
    v_id := .num 1, parent_id := .num 1, available_seats := .num 4
    p_id := .num 1, name := .str "J. Doe", email := .str "j@x.com"
    phone := .str "0612345678" }

/-! ## Connections -/

/-- Whether the event is a connection obtained from the pool. -/
def Event.acquired (ev : Event) : Bool :=
  match ev.call, ev.outcome with
  | .getConnection, .ok _ => true
  | _, _ => false

/-- Whether the event is a call of `connection.release()`. -/
def Event.released (ev : Event) : Bool :=
  match ev.call with
  | .release => true
  | _ => false

/-- The number of connections obtained during the run. -/
def Sys.acquisitions {σ : Type} (s : Sys σ) : Nat := (s.trace.filter Event.acquired).length

/-- The number of connections released during the run. -/
def Sys.releases {σ : Type} (s : Sys σ) : Nat := (s.trace.filter Event.released).length

/-- A store with two vehicles of parent 1. -/
def twoVehicles : Tables :=
  { parent := [{ id := 1, name := .str "J. Doe", email := .str "j@x.com"
                 phone := .str "0612345678" }]
    vehicle := [{ id := 1, parent_id := .num 1, available_seats := .num 4 },
                { id := 2, parent_id := .num 1, available_seats := .num 7 }] }

/-- The rows of `ChildActivity` that link the child to the activity. -/
def Tables.pairRows (t : Tables) (childId activityId : Col) : List (Col × Col) :=
  t.childActivity.filter fun ca => Tables.sqlEq ca.1 childId && Tables.sqlEq ca.2 activityId

/-- The statement sent on a connection by the call, if it is one. -/
def Call.statement? : Call → Option Stmt
  | .query st => some st
  | _ => none

/-- The statements sent on a connection during the run, oldest first. -/
def Sys.statements {σ : Type} (s : Sys σ) : List Stmt := s.calls.filterMap Call.statement?

/-- A store with child 1 (Tom) linked to parents 3 and 4 and to activity 10,
and child 2 (Ann) linked to parent 5 and to activity 10. -/
def familyTables : Tables :=
  { child := [{ id := 1, name := .str "Tom" }, { id := 2, name := .str "Ann" }]
    parentChild := [(.num 3, .num 1), (.num 5, .num 2), (.num 4, .num 1)]
    childActivity := [(.num 1, .num 10), (.num 2, .num 10)] }

/-! ## Values of request bodies -/

/-- A numeric property of a request body: absent, `null`, `NaN` or a finite
number. A property that holds a string, a boolean or an object is not a value
of this type: what is stated over `Num` speaks of numeric properties only. -/
inductive Num where
  | undefined
  | null
  | nan
  | fin (q : ℚ)
  deriving DecidableEq, Repr, Inhabited

namespace Num

/-- Truthiness of the value. -/
def truthy : Num → Bool
  | fin q => decide (q ≠ 0)
  | _ => false

/-- The abstract operation `ToNumber`; `none` stands for `NaN`. -/
def toNumber : Num → Option ℚ
  | undefined => none
  | null => some 0
  | nan => none
  | fin q => some q

/-- The global function `isNaN(v)`. -/
def isNaN (v : Num) : Bool := v.toNumber.isNone

/-- The comparison `a <= b`, false when either side converts to `NaN`. -/
def le (a b : Num) : Bool :=
  match a.toNumber, b.toNumber with
  | some x, some y => decide (x ≤ y)
  | _, _ => false

/-- The JavaScript expression `a || b`. -/
def orElse (a b : Num) : Num := if a.truthy then a else b

/-- Whether the value is a positive integer. -/
def isPositiveInteger : Num → Prop
  | fin q => 0 < q ∧ ∃ n : ℤ, q = n
  | _ => False

/-- The value as a column value, when it is absent, `null` or an integer. -/
def toCol? : Num → Option Col
  | undefined => some Col.undefined
  | null => some Col.null
  | nan => none
  | fin q => if q.den = 1 then some (Col.num q.num) else none

end Num

/-- Whether the character is white space or a line terminator for
`String.prototype.trim`. -/
def isJsWhite (c : Char) : Bool :=
  [0x09, 0x0A, 0x0B, 0x0C, 0x0D, 0x20, 0xA0, 0x1680, 0x2000, 0x2001, 0x2002, 0x2003, 0x2004,
   0x2005, 0x2006, 0x2007, 0x2008, 0x2009, 0x200A, 0x2028, 0x2029, 0x202F, 0x205F, 0x3000,
   0xFEFF].contains c.toNat

/-- The test `s.trim() === ''`: every character of `s` is trimmed away. -/
def jsBlank (s : String) : Bool := s.toList.all isJsWhite

/-- Whether `needle` occurs in `hay` from its first position on. -/
def startsWithChars : List Char → List Char → Bool
  | [], _ => true
  | _ :: _, [] => false
  | n :: ns, h :: hs => n == h && startsWithChars ns hs

/-- Whether `needle` occurs somewhere in `hay`. -/
def includesChars (needle : List Char) : List Char → Bool
  | [] => needle.isEmpty
  | h :: hs => startsWithChars needle (h :: hs) || includesChars needle hs

/-- The method `s.includes(needle)` of strings. -/
def jsIncludes (s needle : String) : Bool := includesChars needle.toList s.toList

/-- The error of calling a missing method, as in `(5).trim()`. -/
def notAFunction (what : String) : JsError := ⟨"TypeError", what ++ " is not a function"⟩

/-- The test `!v || v.trim() === ''` of the validators on a property `v`:
`true` when the value is falsy or a blank string; calling `trim` on a number
throws. -/
def missingText (what : String) : Col → Except JsError Bool
  | .str s => .ok (s == "" || jsBlank s)
  | .num n => if n == 0 then .ok true else .error (notAFunction (what ++ ".trim"))
  | _ => .ok true

/-! ## Services over repositories -/

/-- What `vehicleRepository.create` resolves to and what `findById` is given:
an id or a vehicle object. -/
inductive VehicleKey where
  | id (c : Col)
  | object (v : Vehicle)
  deriving DecidableEq, Repr, Inhabited

/-- The vehicle data of a request (`vehicleData`, `transportData.vehicle`);
an absent nested `parent` is `none`. -/
structure VehiclePart where
  id : Col := .undefined
  parent : Option EntityRef := none
  parentId : Col := .undefined
  availableSeats : Num := .undefined
  deriving DecidableEq, Repr, Inhabited

/-- A transport object at the level of the services: the body of a request,
a transport returned by the repository, or an instance built by
`new Transport(...)`, whose `activity` and `vehicle` are `null`. -/
structure TransportObj where
  id : Col := .undefined
  type : Col := .undefined
  dateStart : Num := .undefined
  dateEnd : Num := .undefined
  pickupLocation : Col := .undefined
  activityId : Col := .undefined
  vehicleId : Col := .undefined
  activity : Option EntityRef := none
  vehicle : Option VehiclePart := none
  deriving DecidableEq, Repr, Inhabited

/-- The body of a parent request. -/
structure ParentData where
  name : Col := .undefined
  email : Col := .undefined
  phone : Col := .undefined
  deriving DecidableEq, Repr, Inhabited

/-- The body of an activity request. -/
structure ActivityData where
  name : Col := .undefined
  address : Col := .undefined
  deriving DecidableEq, Repr, Inhabited

/-- The body of a child request: `parent` is `none` when the property is
falsy, `activities` is `none` when it is falsy or not an array. -/
structure ChildData where
  name : Col := .undefined
  parent : Option Parent := none
  activities : Option (List Activity) := none
  deriving DecidableEq, Repr, Inhabited

/-- A call of a repository method made by a service, with its arguments. -/
inductive RepoCall where
  | vehicleFindById (key : VehicleKey)
  | vehicleCreate (data : VehiclePart)
  | vehicleIsUsedInTransports (id : Col)
  | vehicleDelete (id : Col)
  | activityFindById (id : Col)
  | activityCreate (activity : Activity)
  | transportFindById (id : Col)
  | transportCreate (data : TransportObj)
  | transportUpdate (id : Col) (data : TransportObj)
  | parentFindById (id : Col)
  | parentCreate (parent : Parent)
  | parentUpdate (id : Col) (data : ParentData)
  | childFindById (id : Col)
  | childCreate (child : Child)
  | childUpdate (child : Child)
  | childDelete (id : Col)
  | childAddActivity (childId activityId : Col)
  | childRemoveActivity (childId activityId : Col)
  | childSetParent (childId parentId : Col)
  | childRemoveParent (childId : Col)
  deriving DecidableEq, Repr, Inhabited

/-- The repositories as the services see them: each method answers from a
state `ρ` with a value or a rejection and leaves a new state. -/
structure Repos (ρ : Type) where
  vehicleFindById : VehicleKey → ρ → Except JsError (Option Vehicle) × ρ
  vehicleCreate : VehiclePart → ρ → Except JsError VehicleKey × ρ
  vehicleIsUsedInTransports : Col → ρ → Except JsError Bool × ρ
  vehicleDelete : Col → ρ → Except JsError Bool × ρ
  activityFindById : Col → ρ → Except JsError (Option Activity) × ρ
  activityCreate : Activity → ρ → Except JsError Activity × ρ
  transportFindById : Col → ρ → Except JsError (Option TransportObj) × ρ
  transportCreate : TransportObj → ρ → Except JsError (Option TransportObj) × ρ
  transportUpdate : Col → TransportObj → ρ → Except JsError (Option TransportObj) × ρ
  parentFindById : Col → ρ → Except JsError (Option Parent) × ρ
  parentCreate : Parent → ρ → Except JsError Parent × ρ
  parentUpdate : Col → ParentData → ρ → Except JsError (Option Parent) × ρ
  childFindById : Col → ρ → Except JsError (Option Child) × ρ
  childCreate : Child → ρ → Except JsError (Option Child) × ρ
  childUpdate : Child → ρ → Except JsError (Option Child) × ρ
  childDelete : Col → ρ → Except JsError Bool × ρ
  childAddActivity : Col → Col → ρ → Except JsError (Option Child) × ρ
  childRemoveActivity : Col → Col → ρ → Except JsError (Option Child) × ρ
  childSetParent : Col → Col → ρ → Except JsError (Option Child) × ρ
  childRemoveParent : Col → ρ → Except JsError (Option Child) × ρ

/-- The state of a run of a service: the state of the repositories and the
repository calls made so far, oldest first. -/
structure Svc (ρ : Type) where
  repo : ρ
  calls : List RepoCall := []

/-- An asynchronous computation of a service. -/
abbrev SAct (ρ α : Type) := Svc ρ → Except JsError α × Svc ρ

section ServiceActs

variable {ρ α β : Type}

/-- Call a repository method and await its outcome. -/
def invoke (c : RepoCall) (f : ρ → Except JsError α × ρ) : SAct ρ α := fun s =>
  let r := f s.repo
  (r.1, { repo := r.2, calls := s.calls ++ [c] })

/-- Sequencing of two steps of a service. -/
def seq (x : SAct ρ α) (f : α → SAct ρ β) : SAct ρ β := fun s =>
  match x s with
  | (.ok a, s1) => f a s1
  | (.error e, s1) => (.error e, s1)

/-- A step that throws `e`. -/
def fail (e : JsError) : SAct ρ α := fun s => (.error e, s)

/-- A step that returns `a`. -/
def done (a : α) : SAct ρ α := fun s => (.ok a, s)

/-- A synchronous check inside a service: its error is thrown, its value
passed on. -/
def check (x : Except JsError α) : SAct ρ α := fun s => (x, s)

end ServiceActs

/-- The initial state of a run of a service. -/
def Svc.init {ρ : Type} (repo : ρ) : Svc ρ := { repo := repo, calls := [] }

namespace VehicleService

variable {ρ : Type}

/-- The method `createVehicle(vehicleData)` of `vehicleService.js` (lines
45-58). Reading `vehicleData.parent.id` throws when `vehicleData` has no
property `parent`. -/
def createVehicle (r : Repos ρ) (vehicleData : VehiclePart) : SAct ρ (Option Vehicle) :=
  match vehicleData.parent with
  | none => fail (typeError "id")
  | some parent =>
    if !parent.id.truthy || vehicleData.availableSeats == Num.null
        || vehicleData.availableSeats == Num.undefined then
      fail (JsError.mk1 "Missing required fields")
    else if vehicleData.availableSeats.le (Num.fin 0) then
      fail (JsError.mk1 "Available seats must be greater than 0")
    else
      seq (invoke (.vehicleCreate vehicleData) (r.vehicleCreate vehicleData)) fun vehicleId =>
      invoke (.vehicleFindById vehicleId) (r.vehicleFindById vehicleId)

/-- The method `deleteVehicle(id)` of `vehicleService.js` (lines 84-95). -/
def deleteVehicle (r : Repos ρ) (id : Col) : SAct ρ Bool :=
  seq (invoke (.vehicleFindById (.id id)) (r.vehicleFindById (.id id))) fun _ =>
  seq (invoke (.vehicleIsUsedInTransports id) (r.vehicleIsUsedInTransports id))
    fun isUsedInTransports =>
    if isUsedInTransports then
      fail (JsError.mk1 "Cannot delete vehicle associated with transports")
    else invoke (.vehicleDelete id) (r.vehicleDelete id)

end VehicleService

namespace TransportService

variable {ρ : Type}

/-- The message of the first check of `_validateTransportData`. -/
def typeMessage : String := "Transport type must be either \"OUTWARD\" or \"RETURN\""

/-- The method `_validateTransportData(transport)` of `transportService.js`
(lines 112-140); `none` is a `null` or `undefined` argument. The optional
chaining `transport?.vehicle.availableSeats` still throws when `transport` has
no property `vehicle`. -/
def validateTransportData (transport : Option TransportObj) : Except JsError Unit :=
  match transport with
  | none => throw (JsError.mk1 typeMessage)
  | some t =>
    if !t.type.truthy || !(t.type == Col.str "OUTWARD" || t.type == Col.str "RETURN") then
      throw (JsError.mk1 typeMessage)
    else if !t.dateStart.truthy || t.dateStart.isNaN then
      throw (JsError.mk1 "Valid start date is required")
    else if !t.dateEnd.truthy || t.dateEnd.isNaN then
      throw (JsError.mk1 "Valid end date is required")
    else if t.dateEnd.le t.dateStart then
      throw (JsError.mk1 "End date must be after start date")
    else do
      let missing ← missingText "transport.pickupLocation" t.pickupLocation
      if missing then throw (JsError.mk1 "Pickup location is required")
      else if !((t.activity.map fun a => a.id.truthy).getD false) then
        throw (JsError.mk1 "Activity is required")
      else
        match t.vehicle with
        | none => throw (typeError "availableSeats")
        | some vehicle =>
          if !vehicle.availableSeats.truthy || vehicle.availableSeats.isNaN then
            throw (JsError.mk1 "Vehicle's available seats info is required")
          else pure ()

/-- The id read by `transportData.activity.id` once the data is validated. -/
def activityIdOf (transport : Option TransportObj) : Col :=
  ((transport.bind fun t => t.activity).map fun a => a.id).getD Col.undefined

/-- The method `createTransport(transportData)` (lines 47-58). -/
def createTransport (r : Repos ρ) (transportData : Option TransportObj) :
    SAct ρ (Option TransportObj) :=
  seq (check (validateTransportData transportData)) fun _ =>
  seq (invoke (.activityFindById (activityIdOf transportData))
    (r.activityFindById (activityIdOf transportData))) fun activity =>
    match activity, transportData with
    | none, _ => fail (JsError.mk1 "Activity not found")
    | some _, some t => invoke (.transportCreate t) (r.transportCreate t)
    | some _, none => fail (typeError "activity")

/-- The instance built by `new Transport(id, type, dateStart, dateEnd,
pickupLocation, activityId)` in `updateTransport` (lines 87-94): the seventh
argument is missing, and the constructor sets `activity` and `vehicle` to
`null`. -/
def updatedTransport (id : Col) (transportData existing : TransportObj) : TransportObj :=
  { id := id
    type := transportData.type.orElse existing.type
    dateStart := transportData.dateStart.orElse existing.dateStart
    dateEnd := transportData.dateEnd.orElse existing.dateEnd
    pickupLocation := transportData.pickupLocation.orElse existing.pickupLocation
    activityId := transportData.activityId.orElse existing.activityId
    vehicleId := Col.undefined
    activity := none
    vehicle := none }

/-- The method `updateTransport(id, transportData)` (lines 60-97). -/
def updateTransport (r : Repos ρ) (id : Col) (transportData : Option TransportObj) :
    SAct ρ (Option TransportObj) :=
  seq (invoke (.transportFindById id) (r.transportFindById id)) fun existingTransport =>
    match existingTransport with
    | none => fail (JsError.mk1 "Transport not found")
    | some existing =>
      seq (check (validateTransportData transportData)) fun _ =>
        match transportData with
        | none => fail (typeError "vehicle")
        | some t =>
          seq (if t.activityId.truthy then
              seq (invoke (.activityFindById t.activityId) (r.activityFindById t.activityId))
                fun activity =>
                  match activity with
                  | none => fail (JsError.mk1 "Activity not found")
                  | some _ => done ()
            else done ()) fun _ =>
          seq (match t.vehicle with
            | none => fail (typeError "id")
            | some vehicle =>
              if vehicle.id.truthy then
                seq (invoke (.vehicleFindById (.id vehicle.id))
                  (r.vehicleFindById (.id vehicle.id))) fun found =>
                  match found with
                  | none => fail (JsError.mk1 "Vehicle not found")
                  | some _ => done ()
              else done ()) fun _ =>
          invoke (.transportUpdate id (updatedTransport id t existing))
            (r.transportUpdate id (updatedTransport id t existing))

/-- What `transportRepository.update` reads of the object it is given, when
its numbers are values a column can hold. -/
def toInput? (t : TransportObj) : Option TransportInput := do
  let dateStart ← t.dateStart.toCol?
  let dateEnd ← t.dateEnd.toCol?
  let vehicle : Option VehicleInput ← match t.vehicle with
    | none => some none
    | some v =>
      match Num.toCol? v.availableSeats with
      | none => none
      | some seats => some (some { parent := v.parent, availableSeats := seats })
  pure { type := t.type, dateStart := dateStart, dateEnd := dateEnd
         pickupLocation := t.pickupLocation, activity := t.activity, vehicle := vehicle }

end TransportService

namespace ChildService

variable {ρ : Type}

/-- The method `getChildById(id)` of `childService.js` (lines 19-25). -/
def getChildById (r : Repos ρ) (id : Col) : SAct ρ Child :=
  seq (invoke (.childFindById id) (r.childFindById id)) fun child =>
    match child with
    | none => fail (JsError.mk1 ("Child with id " ++ id.toStr ++ " not found"))
    | some c => done c

/-- The method `_validateChildData(data)` (lines 194-198). -/
def validateChildData (data : ChildData) : Except JsError Unit := do
  let missing ← missingText "data.name" data.name
  if missing then throw (JsError.mk1 "Child name is required") else pure ()

/-- The child that `updateChild` hands to the repository (lines 83-101): the
name and the parent are those of the data, the parent being `null` when the
data has none; the activities are replaced when the data carries an array. -/
def updatedChild (existingChild : Child) (data : ChildData) : Child :=
  let named : Child := { existingChild with name := data.name }
  let withParent : Child :=
    match data.parent with
    | some p => named.setParent p
    | none => { named with parent := none }
  match data.activities with
  | some activities => activities.foldl Child.addActivity { withParent with activities := [] }
  | none => withParent

/-- The method `createChild(data)` (lines 51-70). -/
def createChild (r : Repos ρ) (data : ChildData) : SAct ρ (Option Child) :=
  seq (check (validateChildData data)) fun _ =>
    let child : Child := { id := .undefined, name := data.name, parentId := .undefined }
    let withParent : Child :=
      match data.parent with
      | some p => child.setParent p
      | none => child
    let full : Child :=
      match data.activities with
      | some activities => activities.foldl Child.addActivity withParent
      | none => withParent
    invoke (.childCreate full) (r.childCreate full)

/-- The method `updateChild(id, data)` (lines 79-104). -/
def updateChild (r : Repos ρ) (id : Col) (data : ChildData) : SAct ρ (Option Child) :=
  seq (getChildById r id) fun existingChild =>
  seq (check (validateChildData data)) fun _ =>
  invoke (.childUpdate (updatedChild existingChild data))
    (r.childUpdate (updatedChild existingChild data))

/-- The method `deleteChild(id)` (lines 112-115). -/
def deleteChild (r : Repos ρ) (id : Col) : SAct ρ Bool :=
  seq (getChildById r id) fun _ => invoke (.childDelete id) (r.childDelete id)

/-- The method `addActivityToChild(childId, activityId)` (lines 124-127). -/
def addActivityToChild (r : Repos ρ) (childId activityId : Col) : SAct ρ (Option Child) :=
  seq (getChildById r childId) fun _ =>
  invoke (.childAddActivity childId activityId) (r.childAddActivity childId activityId)

/-- The method `removeActivityFromChild(childId, activityId)` (lines 136-139). -/
def removeActivityFromChild (r : Repos ρ) (childId activityId : Col) : SAct ρ (Option Child) :=
  seq (getChildById r childId) fun _ =>
  invoke (.childRemoveActivity childId activityId) (r.childRemoveActivity childId activityId)

/-- The method `setParentForChild(childId, parentId)` (lines 148-151). -/
def setParentForChild (r : Repos ρ) (childId parentId : Col) : SAct ρ (Option Child) :=
  seq (getChildById r childId) fun _ =>
  invoke (.childSetParent childId parentId) (r.childSetParent childId parentId)

/-- The method `removeParentFromChild(childId)` (lines 159-162). -/
def removeParentFromChild (r : Repos ρ) (childId : Col) : SAct ρ (Option Child) :=
  seq (getChildById r childId) fun _ =>
  invoke (.childRemoveParent childId) (r.childRemoveParent childId)

end ChildService

namespace ParentService

variable {ρ : Type}

/-- The test of `/^(06|07)[0-9]{8}$/` on a string. -/
def phoneMatches (s : String) : Bool :=
  match s.toList with
  | a :: b :: rest =>
    a == '0' && (b == '6' || b == '7') && rest.length == 8 && rest.all Char.isDigit
  | _ => false

/-- The method `_validateParentData(data)` of `parentService.js` (lines
53-78); the name is checked twice. -/
def validateParentData (data : ParentData) : Except JsError Unit :=
  missingText "data.name" data.name >>= fun noName =>
  if noName then throw (JsError.mk1 "Parent name is required") else
  missingText "data.name" data.name >>= fun noNameAgain =>
  if noNameAgain then throw (JsError.mk1 "Parent name is required") else
  missingText "data.email" data.email >>= fun noEmail =>
  if noEmail then throw (JsError.mk1 "Parent email is required") else
  match data.email with
  | .str email =>
    if !jsIncludes email "@" then throw (JsError.mk1 "Invalid email format, must contain @") else
    missingText "data.phone" data.phone >>= fun noPhone =>
    if noPhone then throw (JsError.mk1 "Parent phone is required") else
    if !phoneMatches data.phone.toStr then
      throw (JsError.mk1 "Invalid phone format, must start with 06 or 07 and contain 10 digits")
    else pure ()
  | _ => throw (notAFunction "data.email.includes")

/-- Whether the value is a string with a character that is not white space. -/
def isNonBlank : Col → Bool
  | .str s => !jsBlank s
  | _ => false

/-- Whether the string consists of exactly ten digits of which the first two
are 06 or 07. -/
def tenDigitMobile (s : String) : Bool :=
  s.toList.length == 10 && s.toList.all Char.isDigit
    && (s.toList.take 2 == ['0', '6'] || s.toList.take 2 == ['0', '7'])

/-- The rule for the data of a parent in words: the name is not blank, the
email is not blank and contains `@`, the phone is a ten-digit number that
begins with 06 or 07. -/
def wellFormed (data : ParentData) : Bool :=
  isNonBlank data.name
    && (isNonBlank data.email
      && match data.email with
        | .str email => email.toList.contains '@'
        | _ => false)
    && match data.phone with
      | .str phone => tenDigitMobile phone
      | _ => false

/-- The method `createParent(parentData)` (lines 25-30). -/
def createParent (r : Repos ρ) (parentData : ParentData) : SAct ρ Parent :=
  seq (check (validateParentData parentData)) fun _ =>
    let parent : Parent :=
      { id := .prim .null, name := .prim parentData.name, email := .prim parentData.email
        phone := .prim parentData.phone }
    invoke (.parentCreate parent) (r.parentCreate parent)

/-- The method `updateParent(id, parentData)` (lines 32-41). -/
def updateParent (r : Repos ρ) (id : Col) (parentData : ParentData) : SAct ρ (Option Parent) :=
  seq (invoke (.parentFindById id) (r.parentFindById id)) fun existingParent =>
    match existingParent with
    | none => fail (JsError.mk1 "Parent not found")
    | some _ =>
      seq (check (validateParentData parentData)) fun _ =>
      invoke (.parentUpdate id parentData) (r.parentUpdate id parentData)

end ParentService

namespace ActivityService

variable {ρ : Type}

/-- The method `_validateActivityData(data)` of `activityService.js` (lines
51-59). -/
def validateActivityData (data : ActivityData) : Except JsError Unit :=
  missingText "data.name" data.name >>= fun noName =>
  if noName then throw (JsError.mk1 "Activity name is required") else
  missingText "data.address" data.address >>= fun noAddress =>
  if noAddress then throw (JsError.mk1 "Activity address is required") else pure ()

/-- The method `createActivity(activityData)` (lines 17-22). -/
def createActivity (r : Repos ρ) (activityData : ActivityData) : SAct ρ Activity :=
  seq (check (validateActivityData activityData)) fun _ =>
    let activity : Activity :=
      { id := .prim .null, name := .prim activityData.name
        address := .prim activityData.address }
    invoke (.activityCreate activity) (r.activityCreate activity)

end ActivityService

/-! ## Create handlers of the controllers -/

/-- The test `error.message.includes(a) || error.message.includes(b) || ...`. -/
def messageIncludes (e : JsError) (needles : List String) : Bool :=
  needles.any fun n => jsIncludes e.message n

/-- The body of `POST /vehicles` as the controller reads it. -/
structure VehicleBody where
  parentId : Col := .undefined
  availableSeats : Num := .undefined
  deriving DecidableEq, Repr, Inhabited

namespace Controller

variable {ρ α : Type}

/-- The status sent by `createActivity` of `activityController.js` (lines
28-39) and by `createChild` of `childController.js` (lines 80-95). -/
def statusRequired (outcome : Except JsError α) : Nat :=
  match outcome with
  | .ok _ => 201
  | .error e => if messageIncludes e ["required"] then 400 else 500

/-- The status sent by `createParent` of `parentController.js` (lines 42-55)
and by `createTransport` of `transportController.js` (lines 70-83). -/
def statusValidation (outcome : Except JsError α) : Nat :=
  match outcome with
  | .ok _ => 201
  | .error e => if messageIncludes e ["required", "must be", "not found"] then 400 else 500

/-- The status sent by `createVehicle` of `vehicleController.js` (lines
55-66). -/
def statusPlain (outcome : Except JsError α) : Nat :=
  match outcome with
  | .ok _ => 201
  | .error _ => 500

/-- The handler `createActivity`. -/
def createActivity (r : Repos ρ) (body : ActivityData) (s : Svc ρ) : Nat :=
  statusRequired (ActivityService.createActivity r body s).1

/-- The handler `createChild`. -/
def createChild (r : Repos ρ) (body : ChildData) (s : Svc ρ) : Nat :=
  statusRequired (ChildService.createChild r body s).1

/-- The handler `createParent`. -/
def createParent (r : Repos ρ) (body : ParentData) (s : Svc ρ) : Nat :=
  statusValidation (ParentService.createParent r body s).1

/-- The handler `createTransport`. -/
def createTransport (r : Repos ρ) (body : Option TransportObj) (s : Svc ρ) : Nat :=
  statusValidation (TransportService.createTransport r body s).1

/-- The handler `createVehicle`: the data handed to the service is
`{ parentId, availableSeats }`. -/
def createVehicle (r : Repos ρ) (body : VehicleBody) (s : Svc ρ) : Nat :=
  statusPlain (VehicleService.createVehicle r
    { parentId := body.parentId, availableSeats := body.availableSeats } s).1

end Controller

/-! ## Repositories with canned answers -/

/-- The answers of a stand-in for the repositories, as the tests of the
services configure them. -/
structure Stub where
  child : Option Child := none
  parent : Option Parent := none
  activity : Option Activity := none
  vehicle : Option Vehicle := none
  transport : Option TransportObj := none
  vehicleKey : VehicleKey := .id (.num 1)
  used : Bool := false
  deriving DecidableEq, Repr, Inhabited

/-- The stand-in repositories: every method resolves to the configured
answer. -/
def stubRepos : Repos Stub where
  vehicleFindById := fun _ s => (.ok s.vehicle, s)
  vehicleCreate := fun _ s => (.ok s.vehicleKey, s)
  vehicleIsUsedInTransports := fun _ s => (.ok s.used, s)
  vehicleDelete := fun _ s => (.ok true, s)
  activityFindById := fun _ s => (.ok s.activity, s)
  activityCreate := fun a s => (.ok a, s)
  transportFindById := fun _ s => (.ok s.transport, s)
  transportCreate := fun _ s => (.ok s.transport, s)
  transportUpdate := fun _ _ s => (.ok s.transport, s)
  parentFindById := fun _ s => (.ok s.parent, s)
  parentCreate := fun p s => (.ok p, s)
  parentUpdate := fun _ _ s => (.ok s.parent, s)
  childFindById := fun _ s => (.ok s.child, s)
  childCreate := fun _ s => (.ok s.child, s)
  childUpdate := fun _ s => (.ok s.child, s)
  childDelete := fun _ s => (.ok true, s)
  childAddActivity := fun _ _ s => (.ok s.child, s)
  childRemoveActivity := fun _ _ s => (.ok s.child, s)
  childSetParent := fun _ _ s => (.ok s.child, s)
  childRemoveParent := fun _ s => (.ok s.child, s)

/-! ## Sample requests -/

/-- A transport request that the validator accepts. -/
def schoolRun : TransportObj :=
  { type := .str "OUTWARD"
    dateStart := .fin 1707123456
    dateEnd := .fin 1707127056
    pickupLocation := .str "School"
    activity := some { id := .num 1 }
    vehicle := some { availableSeats := .fin 3 } }

/-- The transport data of the tests of the service
(`transportService.test.js`, lines 462-471). -/
def testTransportData : TransportObj :=
  { type := .str "outward"
    dateStart := .fin 1707123456
    dateEnd := .fin 1707127056
    pickupLocation := .str "School"
    activityId := .num 1
    vehicle := some { availableSeats := .fin 3 } }

/-- The activity that the stand-in repository finds. -/
def swimming : Activity :=
  { id := .prim (.num 1), name := .prim (.str "Swimming"), address := .prim (.str "Pool Rd") }

/-- Transport 1 of the scenario as the repository returns it to the service. -/
def storedTransport : TransportObj :=
  { id := .num 1
    type := .str "OUTWARD"
    dateStart := .fin 100
    dateEnd := .fin 200
    pickupLocation := .str "School"
    activityId := .num 1
    vehicleId := .num 1 }

/-- A valid update of a transport that carries vehicle data. -/
def updateRequest : TransportObj :=
  { type := .str "RETURN"
    dateStart := .fin 300
    dateEnd := .fin 400
    pickupLocation := .str "Stadium"
    activity := some { id := .num 1 }
    vehicle := some { availableSeats := .fin 6 } }

/-- A stored child of the stand-in repository: Tom, with parent J. Doe and
the activity Swimming. -/
def tom : Child :=
  { id := .num 1, name := .str "Tom", parentId := .num 7
    activities := [swimming]
    parent := some { id := .prim (.num 7), name := .prim (.str "J. Doe")
                     email := .prim (.str "j@x.com"), phone := .prim (.str "0612345678") } }

/-- The activity Riding. -/
def riding : Activity :=
  { id := .prim (.num 2), name := .prim (.str "Riding"), address := .prim (.str "Stable Ln") }

/-! ## Hydration of children -/

/-- Hydrating a non-empty sequence of rows throws at the first row. -/
theorem ChildRepository.foldlM_hydrateRow_cons (row : Row) (rows : List Row) :
    (row :: rows).foldlM ChildRepository.hydrateRow [] = .error parentNotDefined := by
  rfl

/-- The method `findAll` fails on every non-empty result set. -/
theorem ChildRepository.findAllRows_cons (row : Row) (rows : List Row) :
    ChildRepository.findAllRows (.ok (row :: rows))
      = .error (JsError.mk1 "Failed to fetch children") := by
  rfl

/-- The method `findById` fails on every non-empty result set. -/
theorem ChildRepository.findByIdRows_cons (id : Col) (row : Row) (rows : List Row) :
    ChildRepository.findByIdRows id (.ok (row :: rows))
      = .error (JsError.mk1 ("Failed to fetch child with id " ++ id.toStr)) := by
  rfl

/-- C1 (evaluation at the failing input): on the two joined rows of one child
with two distinct activities, `findAll` returns no child at all: it throws
`Failed to fetch children`, because `Child.fromDatabase` throws. -/
theorem findAll_one_child_two_activities_throws :
    ChildRepository.findAllRows (.ok [tomSwimming, tomRiding])
      = .error (JsError.mk1 "Failed to fetch children") := by
  rfl

/-- C2 (the failure is general): for every non-empty sequence of joined rows
`findAll` throws `Failed to fetch children` instead of returning one child
per distinct root id. -/
theorem findAll_nonempty_throws (rows : List Row) (h : rows ≠ []) :
    ChildRepository.findAllRows (.ok rows)
      = .error (JsError.mk1 "Failed to fetch children") := by
  cases rows with
  | nil => exact absurd rfl h
  | cons row rest => exact ChildRepository.findAllRows_cons row rest

/-- Witness of `findAll_nonempty_throws`: two rows of child 1 followed by a
row of child 2. -/
theorem findAll_nonempty_throws_witness :
    [tomSwimming, tomRiding, annAlone] ≠ [] ∧
    ChildRepository.findAllRows (.ok [tomSwimming, tomRiding, annAlone])
      = .error (JsError.mk1 "Failed to fetch children") :=
  ⟨by simp, findAll_nonempty_throws [tomSwimming, tomRiding, annAlone] (by simp)⟩

/-- C3 (evaluation at the failing input): on the row of a child with a parent,
`findAll` throws, and the parent that `Parent.fromDatabase` builds from that
row takes its name from the column `name`, which holds the name of the child,
and its email and phone from columns the query does not select. -/
theorem findAll_parent_row_throws_and_parent_reads_child_columns :
    ChildRepository.findAllRows (.ok [tomSwimming])
      = .error (JsError.mk1 "Failed to fetch children") ∧
    Parent.fromDatabase tomSwimming
      = { id := .prim (.num 7), name := .prim (.str "Tom")
          email := .prim .undefined, phone := .prim .undefined } := by
  exact ⟨rfl, rfl⟩

/-- C4 (the failure is general): on every non-empty sequence of rows both
`findById` and `findAll` throw, each its own error, so `findById` yields no
child equal to a first element of `findAll`. -/
theorem findById_and_findAll_both_throw (id : Col) (rows : List Row) (h : rows ≠ []) :
    ChildRepository.findByIdRows id (.ok rows)
      = .error (JsError.mk1 ("Failed to fetch child with id " ++ id.toStr)) ∧
    ChildRepository.findAllRows (.ok rows)
      = .error (JsError.mk1 "Failed to fetch children") := by
  cases rows with
  | nil => exact absurd rfl h
  | cons row rest =>
    exact ⟨ChildRepository.findByIdRows_cons id row rest,
      ChildRepository.findAllRows_cons row rest⟩

/-- Witness of `findById_and_findAll_both_throw`: the two rows of child 1. -/
theorem findById_and_findAll_both_throw_witness :
    [tomSwimming, tomRiding] ≠ [] ∧
    ChildRepository.findByIdRows (.num 1) (.ok [tomSwimming, tomRiding])
      = .error (JsError.mk1 "Failed to fetch child with id 1") ∧
    ChildRepository.findAllRows (.ok [tomSwimming, tomRiding])
      = .error (JsError.mk1 "Failed to fetch children") :=
  ⟨by simp, findById_and_findAll_both_throw (.num 1) [tomSwimming, tomRiding] (by simp)⟩

/-- C5: when the join query yields zero rows, `findAll` returns the empty
list and `findById` returns `null`; neither throws. -/
theorem empty_result_gives_empty_list_and_null {σ : Type} (d : Driver σ) (st : σ) (id : Col)
    (hall : (d (.poolQuery .selectChildren) st).1 = .ok (.rows []))
    (hone : (d (.poolQuery (.selectChildById id)) st).1 = .ok (.rows [])) :
    (ChildRepository.findAll d (Sys.init st)).1 = .ok [] ∧
    (ChildRepository.findById d id (Sys.init st)).1 = .ok none := by
  constructor
  · simp only [ChildRepository.findAll, call, Sys.init, hall]
    rfl
  · simp only [ChildRepository.findById, call, Sys.init, hone]
    rfl

/-- Witness of `empty_result_gives_empty_list_and_null`: the store with empty
tables, looked up for child 1. -/
theorem empty_result_gives_empty_list_and_null_witness :
    (sqlDriver (.poolQuery .selectChildren) {}).1 = .ok (.rows []) ∧
    (sqlDriver (.poolQuery (.selectChildById (.num 1))) {}).1 = .ok (.rows []) ∧
    (ChildRepository.findAll sqlDriver (Sys.init {})).1 = .ok [] ∧
    (ChildRepository.findById sqlDriver (.num 1) (Sys.init {})).1 = .ok none :=
  ⟨rfl, rfl, empty_result_gives_empty_list_and_null sqlDriver {} (.num 1) rfl rfl⟩

/-! ## Hydration of transports -/

/-- C6 (evaluation at the failing input): on the joined row of the end-to-end
scenario, `findByActivityId` returns a transport whose activity has the row
object as id and `undefined` as name and address, whereas `findAll` on the
same row returns the activity 1, Swimming, Pool Rd. Both return a vehicle with
four seats. -/
theorem findByActivityId_builds_activity_from_row_object :
    TransportRepository.findByActivityIdRows (.ok (.rows [outwardRow]))
      = .ok [TransportRepository.hydrateByActivity outwardRow] ∧
    (TransportRepository.hydrateByActivity outwardRow).activity
      = some { id := .obj outwardRow, name := .prim .undefined, address := .prim .undefined } ∧
    (TransportRepository.hydrateByActivity outwardRow).vehicle.map Vehicle.availableSeats
      = some (.num 4) ∧
    (TransportRepository.findAllRows (.ok (.rows [outwardRow]))).map
        (List.map fun t => (t.activity, t.vehicle.map Vehicle.availableSeats))
      = .ok [(some { id := .prim (.num 1), name := .prim (.str "Swimming")
                     address := .prim (.str "Pool Rd") }, some (.num 4))] := by
  exact ⟨rfl, rfl, rfl, rfl⟩

/-! ## Writes of `childRepository.js` -/

/-- C8 (evaluation at the failing input): creating the child Tom, without
parent or activities, in an empty store where no call fails, inserts and
commits the `Child` row, then throws `Failed to create child` because the
read-back `findById` throws; the rollback issued after the commit restores
nothing, and the `Child` row stays. -/
theorem create_reports_failure_after_commit :
    (ChildRepository.create sqlDriver { name := .str "Tom" } (Sys.init {})).1
      = .error (JsError.mk1 "Failed to create child") ∧
    (ChildRepository.create sqlDriver { name := .str "Tom" } (Sys.init {})).2.store.tables
      = { child := [{ id := 1, name := .str "Tom" }] } ∧
    (ChildRepository.create sqlDriver { name := .str "Tom" } (Sys.init {})).2.calls
      = [.getConnection, .beginTransaction, .query (.insertChild (.str "Tom")), .commit,
         .poolQuery (.selectChildById (.num 1)), .rollback, .release] := by
  exact ⟨rfl, rfl, rfl⟩

/-- C9 (counterexample): when the insert of the `Child` row fails with a
storage error, the error that `create` throws is not that error: it is a new
error with the message `Failed to create child`. -/
theorem create_does_not_rethrow_storage_error :
    (ChildRepository.create sqlDriver { name := .str "Tom" }
        (Sys.init { faults := [none, none, some storageError] })).1
      = .error (JsError.mk1 "Failed to create child") ∧
    (ChildRepository.create sqlDriver { name := .str "Tom" }
        (Sys.init { faults := [none, none, some storageError] })).1
      ≠ .error storageError ∧
    ((ChildRepository.create sqlDriver { name := .str "Tom" }
        (Sys.init { faults := [none, none, some storageError] })).2.trace.map
          fun ev => (ev.call, ev.outcome.toOption.isSome))
      = [(.getConnection, true), (.beginTransaction, true),
         (.query (.insertChild (.str "Tom")), false), (.rollback, true), (.release, true)] := by
  refine ⟨rfl, ?_, rfl⟩
  intro h
  have h2 : JsError.mk1 "Failed to create child" = storageError := Except.error.inj h
  exact absurd (congrArg JsError.message h2) (by decide)

/-! ## Writes of `transportRepository.js` -/

/-- C7: in `transportRepository.create`, when the insert of the `Vehicle` row
succeeds and the insert of the `Transport` row then fails with `e`, the
rollback is issued, the error `e` is thrown, and the tables afterwards are
the tables before the call: no `Vehicle` row survives. -/
theorem create_failed_transport_insert_restores_tables (t : Tables) (data : TransportInput)
    (vehicle : VehicleInput) (parent activity : EntityRef) (e : JsError)
    (rest : List (Option JsError))
    (hv : data.vehicle = some vehicle) (hp : vehicle.parent = some parent)
    (ha : data.activity = some activity) :
    (TransportRepository.create sqlDriver data
        (Sys.init { tables := t, faults := [none, none, none, some e, none] ++ rest })).1
      = .error e ∧
    (TransportRepository.create sqlDriver data
        (Sys.init { tables := t, faults := [none, none, none, some e, none] ++ rest })).2.store.tables
      = t ∧
    ((TransportRepository.create sqlDriver data
        (Sys.init { tables := t, faults := [none, none, none, some e, none] ++ rest })).2.trace.map
          fun ev => (ev.call, ev.outcome.toOption.isSome))
      = [(.getConnection, true), (.beginTransaction, true),
         (.query (.insertVehicleReturning parent.id vehicle.availableSeats), true),
         (.query (.insertTransport data.type data.dateStart data.dateEnd data.pickupLocation
            activity.id (.num (Tables.nextId (t.vehicle.map VehicleRec.id)))), false),
         (.rollback, true), (.release, true)] := by
  obtain ⟨ty, ds, de, pl, act, veh⟩ := data
  obtain ⟨vp, seats⟩ := vehicle
  simp only at hv hp ha
  subst hv hp ha
  exact ⟨rfl, rfl, rfl⟩

/-- Witness of `create_failed_transport_insert_restores_tables`: the transport
of the end-to-end scenario on a store that holds one vehicle already. -/
theorem create_failed_transport_insert_restores_tables_witness :
    (TransportRepository.create sqlDriver
        { type := .str "OUTWARD", dateStart := .num 100, dateEnd := .num 200
          pickupLocation := .str "School", activity := some { id := .num 1 }
          vehicle := some { parent := some { id := .num 1 }, availableSeats := .num 4 } }
        (Sys.init { tables := { vehicle := [{ id := 3, parent_id := .num 1
                                              available_seats := .num 2 }] }
                    faults := [none, none, none, some storageError, none] })).2.store.tables
      = { vehicle := [{ id := 3, parent_id := .num 1, available_seats := .num 2 }] } :=
  (create_failed_transport_insert_restores_tables
    { vehicle := [{ id := 3, parent_id := .num 1, available_seats := .num 2 }] }
    { type := .str "OUTWARD", dateStart := .num 100, dateEnd := .num 200
      pickupLocation := .str "School", activity := some { id := .num 1 }
      vehicle := some { parent := some { id := .num 1 }, availableSeats := .num 4 } }
    { parent := some { id := .num 1 }, availableSeats := .num 4 } { id := .num 1 } { id := .num 1 }
    storageError [] rfl rfl rfl).2.1

/-! ## Failed statements and the rollback -/

section Rollback

variable {σ α β : Type}

theorem noFailedStatement_append {tr : List Event} {ev : Event}
    (h : NoFailedStatement tr) (hev : ev.failedStatement = false) :
    NoFailedStatement (tr ++ [ev]) := by
  intro ev1 hmem
  rcases List.mem_append.mp hmem with h1 | h1
  · exact h ev1 h1
  · rw [List.mem_singleton.mp h1]; exact hev

theorem sound_call (d : Driver σ) (c : Call) : Sound (call d c) := by
  intro s a s1 h hs
  simp only [call, Prod.mk.injEq] at h
  obtain ⟨h1, h2⟩ := h
  subst h2
  exact noFailedStatement_append hs (by simp [Event.failedStatement, h1])

theorem sound_ok (a : α) : Sound (fun s : Sys σ => (Except.ok a, s)) := by
  intro s a1 s1 h hs
  simp only [Prod.mk.injEq] at h
  rw [← h.2]; exact hs

theorem sound_andThen {x : Act σ α} {f : α → Act σ β} (hx : Sound x) (hf : ∀ a, Sound (f a)) :
    Sound (andThen x f) := by
  intro s b s2 h hs
  unfold andThen at h
  rcases hxs : x s with ⟨_ | a, s1⟩
  · rw [hxs] at h; simp at h
  · rw [hxs] at h
    exact hf a s1 b s2 h (hx s a s1 hxs hs)

theorem ChildRepository.sound_findById (d : Driver σ) (id : Col) :
    Sound (ChildRepository.findById d id) := by
  intro s a s1 h hs
  simp only [ChildRepository.findById, call, Prod.mk.injEq] at h
  rw [← h.2]
  exact noFailedStatement_append hs (by simp [Event.failedStatement])

theorem ChildRepository.sound_insertActivities (d : Driver σ) (childId : Col)
    (activities : List EntityRef) :
    Sound (ChildRepository.insertActivities d childId activities) := by
  induction activities with
  | nil => exact sound_ok ()
  | cons a rest ih => exact sound_andThen (sound_call d _) (fun _ => ih)

theorem ChildRepository.sound_insertParent (d : Driver σ) (parent : Option EntityRef)
    (childId : Col) : Sound (ChildRepository.insertParent d parent childId) := by
  cases parent with
  | none => exact sound_ok ()
  | some p => exact sound_andThen (sound_call d _) (fun _ => sound_ok ())

theorem ChildRepository.sound_createBody (d : Driver σ) (child : ChildInput) :
    Sound (ChildRepository.createBody d child) :=
  sound_andThen (sound_call d _) fun _ =>
  sound_andThen (ChildRepository.sound_insertParent d _ _) fun _ =>
  sound_andThen (ChildRepository.sound_insertActivities d _ _) fun _ =>
  sound_andThen (sound_call d _) fun _ => ChildRepository.sound_findById d _

theorem ChildRepository.sound_updateBody (d : Driver σ) (child : ChildInput) :
    Sound (ChildRepository.updateBody d child) :=
  sound_andThen (sound_call d _) fun _ =>
  sound_andThen (sound_call d _) fun _ =>
  sound_andThen (ChildRepository.sound_insertParent d _ _) fun _ =>
  sound_andThen (sound_call d _) fun _ =>
  sound_andThen (ChildRepository.sound_insertActivities d _ _) fun _ =>
  sound_andThen (sound_call d _) fun _ => ChildRepository.sound_findById d _

theorem ChildRepository.sound_deleteBody (d : Driver σ) (id : Col) :
    Sound (ChildRepository.deleteBody d id) :=
  sound_andThen (sound_call d _) fun _ =>
  sound_andThen (sound_call d _) fun _ =>
  sound_andThen (sound_call d _) fun _ =>
  sound_andThen (sound_call d _) fun _ => sound_ok true

theorem ChildRepository.sound_setParentBody (d : Driver σ) (childId parentId : Col) :
    Sound (ChildRepository.setParentBody d childId parentId) :=
  sound_andThen (sound_call d _) fun _ =>
  sound_andThen (sound_call d _) fun _ =>
  sound_andThen (sound_call d _) fun _ => ChildRepository.sound_findById d _

theorem noFailedStatement_call (d : Driver σ) (c : Call) (s : Sys σ)
    (hc : ∀ st, c ≠ .query st) (hs : NoFailedStatement s.trace) :
    NoFailedStatement (call d c s).2.trace := by
  refine noFailedStatement_append hs ?_
  cases c <;> simp_all [Event.failedStatement]

/-- The guarded block: a rejected statement makes it throw after a rollback
and a release. -/
theorem guarded_failed_statement (d : Driver σ) (body : Act σ α) (hb : Sound body) (s : Sys σ)
    (hs : NoFailedStatement s.trace)
    (hfail : ∃ ev ∈ (guarded d body s).2.trace, ev.failedStatement = true) :
    (∃ e, (guarded d body s).1 = .error e) ∧
    ∃ pre, (guarded d body s).2.calls = pre ++ [.rollback, .release] := by
  unfold guarded at hfail ⊢
  rcases hbody : body s with ⟨e | a, s1⟩
  · simp only []
    rcases hr : call d .rollback s1 with ⟨e2 | r, s2⟩ <;>
    · simp only [call, Prod.mk.injEq] at hr
      obtain ⟨_, rfl⟩ := hr
      refine ⟨⟨_, rfl⟩, s1.calls, ?_⟩
      simp [release, call, Sys.calls]
  · rw [hbody] at hfail
    obtain ⟨ev, hmem, hev⟩ := hfail
    have hclean : NoFailedStatement (release d s1).trace :=
      noFailedStatement_call d .release s1 (by simp) (hb s a s1 hbody hs)
    rw [hclean ev hmem] at hev
    exact absurd hev (by simp)

/-- A rejected statement inside a transaction makes the method throw after a
rollback and a release. -/
theorem transaction_failed_statement (d : Driver σ) (body : Act σ α) (hb : Sound body) (st : σ)
    (hfail : ∃ ev ∈ (transaction d body (Sys.init st)).2.trace, ev.failedStatement = true) :
    (∃ e, (transaction d body (Sys.init st)).1 = .error e) ∧
    ∃ pre, (transaction d body (Sys.init st)).2.calls = pre ++ [.rollback, .release] := by
  have h0 : NoFailedStatement (Sys.init st).trace := by
    intro ev hmem; simp [Sys.init] at hmem
  have h1 := noFailedStatement_call d .getConnection (Sys.init st) (by simp) h0
  have h2 := noFailedStatement_call d .beginTransaction
    (call d .getConnection (Sys.init st)).2 (by simp) h1
  unfold transaction andThen at hfail ⊢
  rcases hc1 : call d .getConnection (Sys.init st) with ⟨e1 | r1, s1⟩
  · rw [hc1] at hfail h1
    obtain ⟨ev, hmem, hev⟩ := hfail
    rw [h1 ev hmem] at hev
    exact absurd hev (by simp)
  · rw [hc1] at hfail h2
    simp only at hfail h2 ⊢
    rcases hc2 : call d .beginTransaction s1 with ⟨e2 | r2, s2⟩
    · rw [hc2] at hfail h2
      obtain ⟨ev, hmem, hev⟩ := hfail
      rw [h2 ev hmem] at hev
      exact absurd hev (by simp)
    · rw [hc2] at hfail h2
      exact guarded_failed_statement d body hb s2 h2 hfail

/-- The outer `catch` replaces whatever error was thrown. -/
theorem rethrowAs_failed (msg : String) (x : Act σ α) (s : Sys σ)
    (h : ∃ e, (x s).1 = .error e) :
    (rethrowAs msg x s).1 = .error (JsError.mk1 msg) ∧ (rethrowAs msg x s).2 = (x s).2 := by
  obtain ⟨e, he⟩ := h
  unfold rethrowAs
  rcases hx : x s with ⟨_ | a, s1⟩
  · simp
  · rw [hx] at he; simp at he

/-- A method of `childRepository.js` made of a transaction inside the outer
`catch`: a rejected statement makes it throw the fixed error, after a
rollback and a release. -/
theorem rethrowAs_transaction_failed_statement (msg : String) (d : Driver σ) (body : Act σ α)
    (hb : Sound body) (st : σ)
    (hfail : (rethrowAs msg (transaction d body) (Sys.init st)).2.statementFailed = true) :
    (rethrowAs msg (transaction d body) (Sys.init st)).1 = .error (JsError.mk1 msg) ∧
    ∃ pre, (rethrowAs msg (transaction d body) (Sys.init st)).2.calls
      = pre ++ [.rollback, .release] := by
  have hsame : (rethrowAs msg (transaction d body) (Sys.init st)).2
      = (transaction d body (Sys.init st)).2 := by
    unfold rethrowAs
    rcases transaction d body (Sys.init st) with ⟨_ | _, _⟩ <;> rfl
  rw [hsame] at hfail ⊢
  have hex : ∃ ev ∈ (transaction d body (Sys.init st)).2.trace, ev.failedStatement = true := by
    simpa [Sys.statementFailed, List.any_eq_true] using hfail
  obtain ⟨herr, hcalls⟩ := transaction_failed_statement d body hb st hex
  exact ⟨(rethrowAs_failed msg _ _ herr).1, hcalls⟩

end Rollback

/-- C9 (amended): when a statement inside the atomic unit of
`childRepository.create`, `update`, `delete` or `setParent` is rejected, the
method issues the rollback and the release and then throws a new error
carrying the fixed message of the method (`Failed to create child`,
`Failed to update child with id <id>`, `Failed to delete child with id <id>`,
`Failed to set parent for child`), whatever the storage error was. -/
theorem child_writes_throw_fixed_error_after_rollback {σ : Type} (d : Driver σ) (st : σ)
    (child : ChildInput) (id childId parentId : Col) :
    ((ChildRepository.create d child (Sys.init st)).2.statementFailed = true →
      (ChildRepository.create d child (Sys.init st)).1
        = .error (JsError.mk1 "Failed to create child") ∧
      ∃ pre, (ChildRepository.create d child (Sys.init st)).2.calls
        = pre ++ [.rollback, .release]) ∧
    ((ChildRepository.update d child (Sys.init st)).2.statementFailed = true →
      (ChildRepository.update d child (Sys.init st)).1
        = .error (JsError.mk1 ("Failed to update child with id " ++ child.id.toStr)) ∧
      ∃ pre, (ChildRepository.update d child (Sys.init st)).2.calls
        = pre ++ [.rollback, .release]) ∧
    ((ChildRepository.delete d id (Sys.init st)).2.statementFailed = true →
      (ChildRepository.delete d id (Sys.init st)).1
        = .error (JsError.mk1 ("Failed to delete child with id " ++ id.toStr)) ∧
      ∃ pre, (ChildRepository.delete d id (Sys.init st)).2.calls
        = pre ++ [.rollback, .release]) ∧
    ((ChildRepository.setParent d childId parentId (Sys.init st)).2.statementFailed = true →
      (ChildRepository.setParent d childId parentId (Sys.init st)).1
        = .error (JsError.mk1 "Failed to set parent for child") ∧
      ∃ pre, (ChildRepository.setParent d childId parentId (Sys.init st)).2.calls
        = pre ++ [.rollback, .release]) :=
  ⟨rethrowAs_transaction_failed_statement _ d _ (ChildRepository.sound_createBody d child) st,
   rethrowAs_transaction_failed_statement _ d _ (ChildRepository.sound_updateBody d child) st,
   rethrowAs_transaction_failed_statement _ d _ (ChildRepository.sound_deleteBody d id) st,
   rethrowAs_transaction_failed_statement _ d _
     (ChildRepository.sound_setParentBody d childId parentId) st⟩

/-- Witness of `child_writes_throw_fixed_error_after_rollback`: the insert of
the `ParentChild` row of `setParent(1, 7)` is rejected. -/
theorem child_writes_throw_fixed_error_after_rollback_witness :
    (ChildRepository.setParent sqlDriver (.num 1) (.num 7)
        (Sys.init { faults := [none, none, none, some storageError] })).2.statementFailed = true ∧
    (ChildRepository.setParent sqlDriver (.num 1) (.num 7)
        (Sys.init { faults := [none, none, none, some storageError] })).1
      = .error (JsError.mk1 "Failed to set parent for child") ∧
    ∃ pre, (ChildRepository.setParent sqlDriver (.num 1) (.num 7)
        (Sys.init { faults := [none, none, none, some storageError] })).2.calls
      = pre ++ [.rollback, .release] :=
  ⟨rfl, (child_writes_throw_fixed_error_after_rollback sqlDriver
    { faults := [none, none, none, some storageError] } {} (.num 1) (.num 1) (.num 7)).2.2.2 rfl⟩

/-! ## Deleting a transport -/

theorem call_trace {σ : Type} (d : Driver σ) (c : Call) (s : Sys σ) :
    (call d c s).2.trace = s.trace ++ [{ call := c, outcome := (call d c s).1 }] :=
  rfl

theorem TransportRepository.transaction_deleteBody_no_row {σ : Type} (d : Driver σ)
    (id vehicleId : Col) (s : Sys σ)
    (h1 : s.trace.any Event.reportsNoRow = false)
    (h2 : s.trace.any Event.isVehicleDelete = false)
    (hzero : (transaction d (TransportRepository.deleteBody d id vehicleId) s).2.trace.any
      Event.reportsNoRow = true) :
    (transaction d (TransportRepository.deleteBody d id vehicleId) s).2.trace.any
      Event.isVehicleDelete = false ∧
    ((transaction d (TransportRepository.deleteBody d id vehicleId) s).2.trace.any
        Event.failedCommit = false →
      (transaction d (TransportRepository.deleteBody d id vehicleId) s).1 = .ok false) := by
  revert hzero
  simp only [transaction, andThen, guarded, TransportRepository.deleteBody, release]
  have t1 := call_trace d .getConnection s
  rcases hc1 : call d .getConnection s with ⟨_ | r1, s1⟩ <;> rw [hc1] at t1 <;>
    simp only [] at t1 ⊢
  · simp [t1, h1, Event.reportsNoRow]
  have t2 := call_trace d .beginTransaction s1
  rcases hc2 : call d .beginTransaction s1 with ⟨_ | r2, s2⟩ <;> rw [hc2] at t2 <;>
    simp only [] at t2 ⊢
  · simp [t2, t1, h1, Event.reportsNoRow]
  have t3 := call_trace d (.query (.deleteTransport id)) s2
  rcases hc3 : call d (.query (.deleteTransport id)) s2 with ⟨_ | r3, s3⟩ <;> rw [hc3] at t3 <;>
    simp only [] at t3 ⊢
  · have t4 := call_trace d .rollback s3
    rcases hc4 : call d .rollback s3 with ⟨_ | r4, s4⟩ <;> rw [hc4] at t4 <;>
      simp only [] at t4 ⊢ <;>
      simp [call_trace, t4, t3, t2, t1, h1, Event.reportsNoRow]
  by_cases haff : r3.affected = true
  · by_cases hveh : vehicleId.truthy = true
    · simp only [haff, hveh, Bool.and_self, if_true, andThen]
      have t4 := call_trace d (.query (.deleteVehicle vehicleId)) s3
      rcases hc4 : call d (.query (.deleteVehicle vehicleId)) s3 with ⟨_ | r4, s4⟩ <;>
        rw [hc4] at t4 <;> simp only [] at t4 ⊢
      · have t5 := call_trace d .rollback s4
        rcases hc5 : call d .rollback s4 with ⟨_ | r5, s5⟩ <;> rw [hc5] at t5 <;>
          simp only [] at t5 ⊢ <;>
          simp [call_trace, t5, t4, t3, t2, t1, h1, haff, Event.reportsNoRow]
      · have t5 := call_trace d .commit s4
        rcases hc5 : call d .commit s4 with ⟨_ | r5, s5⟩ <;> rw [hc5] at t5 <;>
          simp only [] at t5 ⊢
        · have t6 := call_trace d .rollback s5
          rcases hc6 : call d .rollback s5 with ⟨_ | r6, s6⟩ <;> rw [hc6] at t6 <;>
            simp only [] at t6 ⊢ <;>
            simp [call_trace, t6, t5, t4, t3, t2, t1, h1, haff, Event.reportsNoRow]
        · simp [call_trace, t5, t4, t3, t2, t1, h1, haff, Event.reportsNoRow]
    · simp only [haff, hveh, Bool.and_false, Bool.false_eq_true, if_false]
      have t5 := call_trace d .commit s3
      rcases hc5 : call d .commit s3 with ⟨_ | r5, s5⟩ <;> rw [hc5] at t5 <;>
        simp only [] at t5 ⊢
      · have t6 := call_trace d .rollback s5
        rcases hc6 : call d .rollback s5 with ⟨_ | r6, s6⟩ <;> rw [hc6] at t6 <;>
          simp only [] at t6 ⊢ <;>
          simp [call_trace, t6, t5, t3, t2, t1, h1, haff, Event.reportsNoRow]
      · simp [call_trace, t5, t3, t2, t1, h1, haff, Event.reportsNoRow]
  · simp only [haff, Bool.false_and, Bool.false_eq_true, if_false]
    have t5 := call_trace d .commit s3
    rcases hc5 : call d .commit s3 with ⟨_ | r5, s5⟩ <;> rw [hc5] at t5 <;>
      simp only [] at t5 ⊢
    · have t6 := call_trace d .rollback s5
      rcases hc6 : call d .rollback s5 with ⟨_ | r6, s6⟩ <;> rw [hc6] at t6 <;>
        simp only [] at t6 ⊢ <;>
        simp [call_trace, t6, t5, t3, t2, t1, h2, Event.isVehicleDelete, Event.failedCommit]
    · simp [call_trace, t5, t3, t2, t1, h2, haff, Event.isVehicleDelete, Event.failedCommit]

/-- Second half of C10 over any storage layer: when the `DELETE` of the
transport reports no affected row, no `DELETE FROM Vehicle` is issued, and
the method returns `false` unless the commit is rejected. -/
theorem TransportRepository.delete_no_row {σ : Type} (d : Driver σ) (st : σ) (id : Col)
    (hzero : (TransportRepository.delete d id (Sys.init st)).2.trace.any
      Event.reportsNoRow = true) :
    (TransportRepository.delete d id (Sys.init st)).2.trace.any Event.isVehicleDelete = false ∧
    ((TransportRepository.delete d id (Sys.init st)).2.trace.any Event.failedCommit = false →
      (TransportRepository.delete d id (Sys.init st)).1 = .ok false) := by
  have t0 : (TransportRepository.findById d id (Sys.init st)).2.trace
      = [{ call := .poolQuery (.selectTransportById id),
           outcome := (d (.poolQuery (.selectTransportById id)) st).1 }] := rfl
  revert hzero
  unfold TransportRepository.delete andThen
  rcases hf : TransportRepository.findById d id (Sys.init st) with ⟨_ | _ | t, s1⟩ <;>
    rw [hf] at t0 <;> simp only [] at t0 ⊢
  · simp [t0, Event.reportsNoRow]
  · simp [t0, Event.reportsNoRow]
  · exact TransportRepository.transaction_deleteBody_no_row d id _ s1
      (by simp [t0, Event.reportsNoRow]) (by simp [t0, Event.isVehicleDelete])

/-! ### Deleting a transport that owns a vehicle -/

theorem Tables.idIs_num (m n : Nat) : Tables.idIs m (.num n) = decide (m = n) := by
  by_cases h : m = n <;> simp [Tables.idIs, Tables.sqlEq, h]

theorem Tables.leftJoin_ne_nil {β : Type} (found : List β) : Tables.leftJoin found ≠ [] := by
  unfold Tables.leftJoin
  split
  · simp
  · cases found <;> simp_all

/-- Every row of the transport join carries the id of the referenced vehicle. -/
theorem Tables.transportRows_v_id (t : Tables) (aliased : Bool) (tr : TransportRec) (n : Nat)
    (hn : tr.vehicle_id = .num n) :
    ∀ row ∈ Tables.transportRows t aliased tr, row.v_id = .num n := by
  intro row hrow
  simp only [Tables.transportRows, List.mem_flatMap, List.mem_filter, List.mem_map] at hrow
  obtain ⟨a, _, v, ⟨_, hv⟩, p, _, rfl⟩ := hrow
  rw [hn, Tables.idIs_num] at hv
  have : v.id = n := by simpa using hv
  cases aliased <;> simp [this]

/-- The transport join of a transport whose activity and vehicle exist has a
row. -/
theorem Tables.transportRows_ne_nil (t : Tables) (aliased : Bool) (tr : TransportRec)
    (a : ActivityRec) (v : VehicleRec) (ha : a ∈ t.activity) (hai : tr.activity_id = .num a.id)
    (hv : v ∈ t.vehicle) (hvi : tr.vehicle_id = .num v.id) :
    Tables.transportRows t aliased tr ≠ [] := by
  intro hnil
  simp only [Tables.transportRows, List.flatMap_eq_nil_iff, List.map_eq_nil_iff,
    List.mem_filter, and_imp] at hnil
  exact Tables.leftJoin_ne_nil _
    (hnil a ha (by rw [hai, Tables.idIs_num]; simp) v hv (by rw [hvi, Tables.idIs_num]; simp))

/-- The hydration of a transport row with a non-zero vehicle id succeeds and
the vehicle of the transport carries that id. -/
theorem TransportRepository.hydrate_vehicle (row : Row) (n : Nat) (hn : 0 < n)
    (hrow : row.v_id = .num n) :
    ∃ tp vh, TransportRepository.hydrate row = .ok tp ∧ tp.vehicle = some vh ∧ vh.id = .num n := by
  have htruthy : row.v_id.truthy = true := by
    rw [hrow]; simp [Col.truthy]; omega
  refine ⟨((Transport.fromDatabase row).setActivity
      (if row.a_id.truthy then some (Activity.fromDatabase row) else none)).setVehicle
      (some ((Vehicle.fromDatabase row).setParent
        (if row.p_id.truthy then some (Parent.fromDatabase row) else none))),
    (Vehicle.fromDatabase row).setParent
      (if row.p_id.truthy then some (Parent.fromDatabase row) else none), ?_, rfl, ?_⟩
  · simp only [TransportRepository.hydrate, htruthy, if_true]
  · simp only [Vehicle.setParent, Vehicle.fromDatabase, Col.orElse, htruthy, if_true]
    exact hrow

/-- The lookup of `delete` finds the transport and the id of its vehicle. -/
theorem TransportRepository.findById_owned (t : Tables) (tr : TransportRec) (a : ActivityRec)
    (v : VehicleRec) (htr : tr ∈ t.transport)
    (huniq : ∀ x ∈ t.transport, x.id = tr.id → x = tr)
    (ha : a ∈ t.activity) (hai : tr.activity_id = .num a.id)
    (hv : v ∈ t.vehicle) (hvi : tr.vehicle_id = .num v.id) (hpos : 0 < v.id) :
    ∃ tp vh, TransportRepository.findByIdRows
        (.ok (Tables.exec (.selectTransportById (.num tr.id)) t).1) = .ok (some tp) ∧
      tp.vehicle = some vh ∧ vh.id = .num v.id := by
  have hrows : ∀ row ∈ (t.transport.filter fun x => Tables.idIs x.id (.num tr.id)).flatMap
      (Tables.transportRows t false), row.v_id = .num v.id := by
    intro row hrow
    simp only [List.mem_flatMap, List.mem_filter] at hrow
    obtain ⟨x, ⟨hx, hid⟩, hmem⟩ := hrow
    rw [Tables.idIs_num] at hid
    have hxe : x = tr := huniq x hx (by simpa using hid)
    subst hxe
    exact Tables.transportRows_v_id t false x v.id hvi row hmem
  have hne : (t.transport.filter fun x => Tables.idIs x.id (.num tr.id)).flatMap
      (Tables.transportRows t false) ≠ [] := by
    intro hnil
    rw [List.flatMap_eq_nil_iff] at hnil
    exact Tables.transportRows_ne_nil t false tr a v ha hai hv hvi
      (hnil tr (List.mem_filter.mpr ⟨htr, by rw [Tables.idIs_num]; simp⟩))
  obtain ⟨row, rest, hcons⟩ := List.exists_cons_of_ne_nil hne
  obtain ⟨tp, vh, h1, h2, h3⟩ := TransportRepository.hydrate_vehicle row v.id hpos
    (hrows row (by rw [hcons]; simp))
  refine ⟨tp, vh, ?_, h2, h3⟩
  simp only [Tables.exec, hcons, TransportRepository.findByIdRows]
  simp [h1, bind, Except.bind, Except.map, pure, Except.pure]

/-- First half of C10 on the transactional store: deleting a transport whose
activity and vehicle rows exist removes the `Transport` row and the `Vehicle`
row and returns `true`. -/
theorem TransportRepository.delete_owned (t : Tables) (tr : TransportRec) (a : ActivityRec)
    (v : VehicleRec) (htr : tr ∈ t.transport)
    (huniq : ∀ x ∈ t.transport, x.id = tr.id → x = tr)
    (ha : a ∈ t.activity) (hai : tr.activity_id = .num a.id)
    (hv : v ∈ t.vehicle) (hvi : tr.vehicle_id = .num v.id) (hpos : 0 < v.id) :
    (TransportRepository.delete sqlDriver (.num tr.id) (Sys.init { tables := t })).1 = .ok true ∧
    (TransportRepository.delete sqlDriver (.num tr.id) (Sys.init { tables := t })).2.store.tables
      = { t with transport := t.transport.filter fun x => x.id != tr.id
                 vehicle := t.vehicle.filter fun x => x.id != v.id } ∧
    (TransportRepository.delete sqlDriver (.num tr.id) (Sys.init { tables := t })).2.calls
      = [.poolQuery (.selectTransportById (.num tr.id)), .getConnection, .beginTransaction,
         .query (.deleteTransport (.num tr.id)), .query (.deleteVehicle (.num v.id)),
         .commit, .release] := by
  obtain ⟨tp, vh, hfind, hveh, hvid⟩ :=
    TransportRepository.findById_owned t tr a v htr huniq ha hai hv hvi hpos
  have hf : TransportRepository.findById sqlDriver (.num tr.id) (Sys.init { tables := t })
      = (.ok (some tp),
          { store := { tables := t }
            trace := [{ call := .poolQuery (.selectTransportById (.num tr.id))
                        outcome := .ok (Tables.exec (.selectTransportById (.num tr.id)) t).1 }] }) := by
    simp only [TransportRepository.findById, call, sqlDriver, Sys.init, List.head?, List.tail,
      hfind]
    rfl
  have hlen : 0 < (t.transport.filter fun x => Tables.idIs x.id (.num tr.id)).length := by
    apply List.length_pos_of_mem (a := tr)
    exact List.mem_filter.mpr ⟨htr, by rw [Tables.idIs_num]; simp⟩
  have htruthy : (Col.num v.id).truthy = true := by
    simp [Col.truthy]; omega
  unfold TransportRepository.delete andThen
  rw [hf]
  simp only [hveh, hvid]
  simp only [transaction, andThen, guarded, TransportRepository.deleteBody, call, release,
    sqlDriver, List.head?, List.tail, Tables.exec, Reply.affected, hlen, htruthy, decide_True,
    Bool.and_self, if_true, Sys.calls, List.map, List.nil_append, List.cons_append]
  refine ⟨trivial, ?_, trivial⟩
  simp only [Tables.idIs_num, Tables.mk.injEq, true_and, and_true]
  constructor
  · exact List.filter_congr (by intro x _; by_cases h : x.id = v.id <;> simp [bne, h])
  · exact List.filter_congr (by intro x _; by_cases h : x.id = tr.id <;> simp [bne, h])

/-- C10: on the transactional store, `transportRepository.delete(id)` on a
transport whose activity and vehicle rows exist (the vehicle id being
positive) removes the `Transport` row and the `Vehicle` row it references and
returns `true`; and over any storage layer, when the `DELETE` of the
transport reports no affected row, no `DELETE FROM Vehicle` is issued and the
method returns `false` (unless the commit itself is rejected). -/
theorem delete_removes_vehicle_unless_no_row_affected :
    (∀ (t : Tables) (tr : TransportRec) (a : ActivityRec) (v : VehicleRec),
      tr ∈ t.transport → (∀ x ∈ t.transport, x.id = tr.id → x = tr) →
      a ∈ t.activity → tr.activity_id = .num a.id →
      v ∈ t.vehicle → tr.vehicle_id = .num v.id → 0 < v.id →
      (TransportRepository.delete sqlDriver (.num tr.id) (Sys.init { tables := t })).1
        = .ok true ∧
      (TransportRepository.delete sqlDriver (.num tr.id) (Sys.init { tables := t })).2.store.tables
        = { t with transport := t.transport.filter fun x => x.id != tr.id
                   vehicle := t.vehicle.filter fun x => x.id != v.id } ∧
      (TransportRepository.delete sqlDriver (.num tr.id) (Sys.init { tables := t })).2.calls
        = [.poolQuery (.selectTransportById (.num tr.id)), .getConnection, .beginTransaction,
           .query (.deleteTransport (.num tr.id)), .query (.deleteVehicle (.num v.id)),
           .commit, .release]) ∧
    (∀ (σ : Type) (d : Driver σ) (st : σ) (id : Col),
      (TransportRepository.delete d id (Sys.init st)).2.trace.any Event.reportsNoRow = true →
      (TransportRepository.delete d id (Sys.init st)).2.trace.any Event.isVehicleDelete = false ∧
      ((TransportRepository.delete d id (Sys.init st)).2.trace.any Event.failedCommit = false →
        (TransportRepository.delete d id (Sys.init st)).1 = .ok false)) :=
  ⟨fun t tr a v htr huniq ha hai hv hvi hpos =>
      TransportRepository.delete_owned t tr a v htr huniq ha hai hv hvi hpos,
    fun _ d st id hzero => TransportRepository.delete_no_row d st id hzero⟩

/-- Witness of `delete_removes_vehicle_unless_no_row_affected`: deleting
transport 1 of the scenario store empties both tables and returns `true`; in
the race, the `DELETE` reports no row, the vehicle is not deleted and the
method returns `false`. -/
theorem delete_removes_vehicle_unless_no_row_affected_witness :
    ((TransportRepository.delete sqlDriver (.num 1) (Sys.init { tables := scenarioTables })).1
        = .ok true ∧
      (TransportRepository.delete sqlDriver (.num 1)
          (Sys.init { tables := scenarioTables })).2.store.tables
        = { scenarioTables with transport := [], vehicle := [] }) ∧
    ((TransportRepository.delete racingDriver (.num 1)
          (Sys.init { tables := scenarioTables })).2.trace.any Event.reportsNoRow = true ∧
      (TransportRepository.delete racingDriver (.num 1)
          (Sys.init { tables := scenarioTables })).2.trace.any Event.isVehicleDelete = false ∧
      (TransportRepository.delete racingDriver (.num 1)
          (Sys.init { tables := scenarioTables })).1 = .ok false) :=
  have h1 := delete_removes_vehicle_unless_no_row_affected.1 scenarioTables
    { id := 1, type := .str "OUTWARD", date_start := .num 100, date_end := .num 200
      pickup_location := .str "School", activity_id := .num 1, vehicle_id := .num 1 }
    { id := 1, name := .str "Swimming", address := .str "Pool Rd" }
    { id := 1, parent_id := .num 1, available_seats := .num 4 }
    (by simp [scenarioTables]) (by simp [scenarioTables])
    (by simp [scenarioTables]) rfl (by simp [scenarioTables]) rfl (by decide)
  have h2 := delete_removes_vehicle_unless_no_row_affected.2 World racingDriver
    { tables := scenarioTables } (.num 1) rfl
  ⟨⟨h1.1, h1.2.1⟩, rfl, h2.1, h2.2 rfl⟩

/-! ## Release of connections -/

/-- C16 (evaluation at the failing input): when `beginTransaction` is
rejected, each of the seven write units has obtained one connection and
released none, and throws. -/
theorem begin_failure_leaks_connection :
    ((ChildRepository.create sqlDriver { name := .str "Tom" }
        (Sys.init { faults := [none, some storageError] })).2.acquisitions = 1 ∧
      (ChildRepository.create sqlDriver { name := .str "Tom" }
        (Sys.init { faults := [none, some storageError] })).2.releases = 0) ∧
    ((ChildRepository.update sqlDriver { id := .num 1, name := .str "Tom" }
        (Sys.init { faults := [none, some storageError] })).2.acquisitions = 1 ∧
      (ChildRepository.update sqlDriver { id := .num 1, name := .str "Tom" }
        (Sys.init { faults := [none, some storageError] })).2.releases = 0) ∧
    ((ChildRepository.delete sqlDriver (.num 1)
        (Sys.init { faults := [none, some storageError] })).2.acquisitions = 1 ∧
      (ChildRepository.delete sqlDriver (.num 1)
        (Sys.init { faults := [none, some storageError] })).2.releases = 0) ∧
    ((ChildRepository.setParent sqlDriver (.num 1) (.num 7)
        (Sys.init { faults := [none, some storageError] })).2.acquisitions = 1 ∧
      (ChildRepository.setParent sqlDriver (.num 1) (.num 7)
        (Sys.init { faults := [none, some storageError] })).2.releases = 0) ∧
    ((TransportRepository.create sqlDriver
        { type := .str "OUTWARD", dateStart := .num 100, dateEnd := .num 200
          pickupLocation := .str "School", activity := some { id := .num 1 }
          vehicle := some { parent := some { id := .num 1 }, availableSeats := .num 4 } }
        (Sys.init { tables := scenarioTables
                    faults := [none, some storageError] })).2.acquisitions = 1 ∧
      (TransportRepository.create sqlDriver
        { type := .str "OUTWARD", dateStart := .num 100, dateEnd := .num 200
          pickupLocation := .str "School", activity := some { id := .num 1 }
          vehicle := some { parent := some { id := .num 1 }, availableSeats := .num 4 } }
        (Sys.init { tables := scenarioTables
                    faults := [none, some storageError] })).2.releases = 0) ∧
    ((TransportRepository.update sqlDriver (.num 1)
        { type := .str "RETURN", dateStart := .num 100, dateEnd := .num 200
          pickupLocation := .str "School", activity := some { id := .num 1 }
          vehicle := some { availableSeats := .num 5 } }
        (Sys.init { tables := scenarioTables
                    faults := [none, none, some storageError] })).2.acquisitions = 1 ∧
      (TransportRepository.update sqlDriver (.num 1)
        { type := .str "RETURN", dateStart := .num 100, dateEnd := .num 200
          pickupLocation := .str "School", activity := some { id := .num 1 }
          vehicle := some { availableSeats := .num 5 } }
        (Sys.init { tables := scenarioTables
                    faults := [none, none, some storageError] })).2.releases = 0) ∧
    ((TransportRepository.delete sqlDriver (.num 1)
        (Sys.init { tables := scenarioTables
                    faults := [none, none, some storageError] })).2.acquisitions = 1 ∧
      (TransportRepository.delete sqlDriver (.num 1)
        (Sys.init { tables := scenarioTables
                    faults := [none, none, some storageError] })).2.releases = 0) ∧
    (ChildRepository.create sqlDriver { name := .str "Tom" }
        (Sys.init { faults := [none, some storageError] })).2.calls
      = [.getConnection, .beginTransaction] := by
  refine ⟨⟨rfl, rfl⟩, ⟨rfl, rfl⟩, ⟨rfl, rfl⟩, ⟨rfl, rfl⟩, ⟨rfl, rfl⟩, ⟨rfl, rfl⟩, ⟨rfl, rfl⟩, rfl⟩

/-! ## Reads of `vehicleRepository.js` and `parentRepository.js` -/

/-- C24 (evaluation at the failing input): with vehicles 1 and 2 stored,
`findById(2)` returns vehicle 1, the first row of the unfiltered join; the
attached parent takes its name, email and phone from columns the query does
not select. -/
theorem vehicle_findById_ignores_id :
    (VehicleRepository.findById sqlDriver (.num 2) (Sys.init { tables := twoVehicles })).1
      = .ok (some { id := .num 1, parentId := .num 1, availableSeats := .num 4
                    parent := some { id := .prim (.num 1), name := .prim .undefined
                                     email := .prim .undefined, phone := .prim .undefined } }) := by
  rfl

/-- C25 (evaluation at the failing input): `parentRepository.findAll` throws a
`TypeError` when the `Parent` table holds a row, and also when it is empty. -/
theorem parent_findAll_throws :
    (ParentRepository.findAll sqlDriver (Sys.init { tables := scenarioTables })).1
      = .error ⟨"TypeError", "rows[0].map is not a function"⟩ ∧
    (ParentRepository.findAll sqlDriver (Sys.init {})).1
      = .error (typeError "map") := by
  exact ⟨rfl, rfl⟩

/-! ## Table effects of the child writes -/

/-- On a store where no call fails, the loop over the activities appends one
`ChildActivity` row per activity, in order. -/
theorem ChildRepository.insertActivities_sql (childId : Col) (activities : List EntityRef)
    (t : Tables) (snap : Option Tables) (tr : List Event) :
    ChildRepository.insertActivities sqlDriver childId activities
        { store := { tables := t, snapshot := snap, faults := [] }, trace := tr }
      = (.ok (),
          { store :=
              { tables :=
                  { t with
                    childActivity :=
                      t.childActivity ++ activities.map (fun a => (childId, a.id)) }
                snapshot := snap, faults := [] }
            trace := tr ++ activities.map fun a =>
              { call := .query (.insertChildActivity childId a.id)
                outcome := .ok (.header 0 1) } }) := by
  induction activities generalizing t tr with
  | nil => simp [ChildRepository.insertActivities]
  | cons a rest ih =>
    simp only [ChildRepository.insertActivities, andThen, call, sqlDriver, List.head?,
      List.tail, Tables.exec]
    rw [ih]
    simp

/-- On a store where no call fails, the optional parent insert appends the
`ParentChild` row of the parent, if any. -/
theorem ChildRepository.insertParent_sql (parent : Option EntityRef) (childId : Col)
    (t : Tables) (snap : Option Tables) (tr : List Event) :
    ChildRepository.insertParent sqlDriver parent childId
        { store := { tables := t, snapshot := snap, faults := [] }, trace := tr }
      = (.ok (),
          { store :=
              { tables :=
                  { t with
                    parentChild :=
                      t.parentChild ++ parent.toList.map (fun p => (p.id, childId)) }
                snapshot := snap, faults := [] }
            trace := tr ++ parent.toList.map fun p =>
              { call := .query (.insertParentChild p.id childId)
                outcome := .ok (.header 0 1) } }) := by
  cases parent with
  | none => simp [ChildRepository.insertParent]
  | some p =>
    simp [ChildRepository.insertParent, andThen, call, sqlDriver, Tables.exec]

/-- On a store where no call fails, the read-back `findById` leaves the store
as it is. -/
theorem ChildRepository.findById_sql (id : Col) (t : Tables) (snap : Option Tables)
    (tr : List Event) :
    ChildRepository.findById sqlDriver id
        { store := { tables := t, snapshot := snap, faults := [] }, trace := tr }
      = (ChildRepository.findByIdRows id
            (.ok (Tables.exec (.selectChildById id) t).1 >>= ChildRepository.rowsOf),
          { store := { tables := t, snapshot := snap, faults := [] }
            trace := tr ++ [{ call := .poolQuery (.selectChildById id)
                              outcome := .ok (Tables.exec (.selectChildById id) t).1 }] }) := by
  simp [ChildRepository.findById, call, sqlDriver, Tables.exec]

theorem filterMap_some_eq_map {α β : Type} (f : α → β) (l : List α) :
    List.filterMap (fun x => some (f x)) l = l.map f := by
  induction l with
  | nil => rfl
  | cons a l ih => simp [List.filterMap_cons, ih]

/-- C14: when no storage call fails, `childRepository.create(child)` adds one
`Child` row with `child.name` and the generated id, one `ParentChild` row for
`child.parent` when there is one, and one `ChildActivity` row per element of
`child.activities`, all carrying the generated id; the statements are sent in
that order. -/
theorem create_adds_child_parent_and_activities (t : Tables) (child : ChildInput) :
    (ChildRepository.create sqlDriver child (Sys.init { tables := t })).2.store.tables
      = { t with
          child := t.child ++ [{ id := Tables.nextId (t.child.map ChildRec.id)
                                 name := child.name }]
          parentChild := t.parentChild ++ child.parent.toList.map
            (fun p => (p.id, Col.num (Tables.nextId (t.child.map ChildRec.id))))
          childActivity := t.childActivity ++ child.activities.map
            (fun a => (Col.num (Tables.nextId (t.child.map ChildRec.id)), a.id)) } ∧
    (ChildRepository.create sqlDriver child (Sys.init { tables := t })).2.statements
      = [Stmt.insertChild child.name]
        ++ child.parent.toList.map
            (fun p => Stmt.insertParentChild p.id
              (Col.num (Tables.nextId (t.child.map ChildRec.id))))
        ++ child.activities.map
            (fun a => Stmt.insertChildActivity
              (Col.num (Tables.nextId (t.child.map ChildRec.id))) a.id) := by
  simp only [ChildRepository.create, rethrowAs, transaction, andThen, guarded,
    ChildRepository.createBody, call, sqlDriver, Sys.init, List.head?, List.tail, Tables.exec,
    Reply.insertId, release, ChildRepository.insertParent_sql,
    ChildRepository.insertActivities_sql, ChildRepository.findById_sql]
  rcases ChildRepository.findByIdRows _ _ with e | v <;>
    simp [Sys.statements, Sys.calls, Call.statement?, List.filterMap_append, List.filterMap_map,
      Function.comp_def, filterMap_some_eq_map]

/-- C13: when no storage call fails, `childRepository.delete(id)` returns
`true`; afterwards no `ParentChild` row, no `ChildActivity` row and no `Child`
row carries that id, the rows of the other children and the other tables are
as before, and the three `DELETE` statements were sent with the two
association tables first. -/
theorem delete_removes_associations_then_child (t : Tables) (id : Col) :
    (ChildRepository.delete sqlDriver id (Sys.init { tables := t })).1 = .ok true ∧
    (ChildRepository.delete sqlDriver id (Sys.init { tables := t })).2.store.tables
      = { t with
          parentChild := t.parentChild.filter (fun pc => !(Tables.sqlEq pc.2 id))
          childActivity := t.childActivity.filter (fun ca => !(Tables.sqlEq ca.1 id))
          child := t.child.filter (fun c => !(Tables.idIs c.id id)) } ∧
    (ChildRepository.delete sqlDriver id (Sys.init { tables := t })).2.statements
      = [.deleteParentChild id, .deleteChildActivity id, .deleteChild id] ∧
    (∀ pc ∈ (ChildRepository.delete sqlDriver id
        (Sys.init { tables := t })).2.store.tables.parentChild, Tables.sqlEq pc.2 id = false) ∧
    (∀ ca ∈ (ChildRepository.delete sqlDriver id
        (Sys.init { tables := t })).2.store.tables.childActivity, Tables.sqlEq ca.1 id = false) ∧
    (∀ c ∈ (ChildRepository.delete sqlDriver id
        (Sys.init { tables := t })).2.store.tables.child, Tables.idIs c.id id = false) := by
  have h : ChildRepository.delete sqlDriver id (Sys.init { tables := t })
      = (.ok true,
          { store :=
              { tables :=
                  { t with
                    parentChild := t.parentChild.filter (fun pc => !(Tables.sqlEq pc.2 id))
                    childActivity := t.childActivity.filter (fun ca => !(Tables.sqlEq ca.1 id))
                    child := t.child.filter (fun c => !(Tables.idIs c.id id)) }
                snapshot := none, faults := [] }
            trace := (ChildRepository.delete sqlDriver id (Sys.init { tables := t })).2.trace }) := by
    simp [ChildRepository.delete, rethrowAs, transaction, andThen, guarded,
      ChildRepository.deleteBody, call, sqlDriver, Sys.init, Tables.exec, release]
  refine ⟨by rw [h], by rw [h], ?_, ?_, ?_, ?_⟩
  · simp [ChildRepository.delete, rethrowAs, transaction, andThen, guarded,
      ChildRepository.deleteBody, call, sqlDriver, Sys.init, Tables.exec, release,
      Sys.statements, Sys.calls, Call.statement?]
  · rw [h]; intro pc hpc; simpa using (List.mem_filter.mp hpc).2
  · rw [h]; intro ca hca; simpa using (List.mem_filter.mp hca).2
  · rw [h]; intro c hc; simpa using (List.mem_filter.mp hc).2

/-- The tables left by `setParent` on a store where no call fails. -/
theorem ChildRepository.setParent_sql_tables (t : Tables) (childId parentId : Col) :
    (ChildRepository.setParent sqlDriver childId parentId
        (Sys.init { tables := t })).2.store.tables
      = { t with
          parentChild :=
            t.parentChild.filter (fun pc => !(Tables.sqlEq pc.2 childId))
              ++ [(parentId, childId)] } := by
  simp only [ChildRepository.setParent, rethrowAs, transaction, andThen, guarded,
    ChildRepository.setParentBody, call, sqlDriver, Sys.init, List.head?, List.tail, Tables.exec,
    release, ChildRepository.findById_sql]
  rcases ChildRepository.findByIdRows _ _ with e | v <;> simp

/-- C11: for every table state and every `childId` that SQL can compare (a
number or a string), when no storage call fails, after
`childRepository.setParent(childId, parentId)` the rows of `ParentChild` with
that `child_id` are exactly the one row `(parentId, childId)`, whatever rows
existed before; the rows of the other children and the other tables are as
before. -/
theorem setParent_leaves_exactly_one_row (t : Tables) (childId parentId : Col)
    (hid : Tables.sqlEq childId childId = true) :
    ((ChildRepository.setParent sqlDriver childId parentId
        (Sys.init { tables := t })).2.store.tables.parentChild.filter
          fun pc => Tables.sqlEq pc.2 childId)
      = [(parentId, childId)] ∧
    ((ChildRepository.setParent sqlDriver childId parentId
        (Sys.init { tables := t })).2.store.tables.parentChild.filter
          fun pc => !(Tables.sqlEq pc.2 childId))
      = (t.parentChild.filter fun pc => !(Tables.sqlEq pc.2 childId)) ∧
    (ChildRepository.setParent sqlDriver childId parentId
        (Sys.init { tables := t })).2.store.tables
      = { t with
          parentChild :=
            t.parentChild.filter (fun pc => !(Tables.sqlEq pc.2 childId))
              ++ [(parentId, childId)] } := by
  rw [ChildRepository.setParent_sql_tables]
  refine ⟨?_, ?_, rfl⟩
  · simp [List.filter_append, List.filter_filter, hid]
  · simp [List.filter_append, List.filter_filter, hid]

/-- The tables left by `update` on a store where no call fails. -/
theorem ChildRepository.update_sql_tables (t : Tables) (child : ChildInput) :
    (ChildRepository.update sqlDriver child (Sys.init { tables := t })).2.store.tables
      = { t with
          child := t.child.map
            (fun c => if Tables.idIs c.id child.id then { c with name := child.name } else c)
          parentChild :=
            t.parentChild.filter (fun pc => !(Tables.sqlEq pc.2 child.id))
              ++ child.parent.toList.map (fun p => (p.id, child.id))
          childActivity :=
            t.childActivity.filter (fun ca => !(Tables.sqlEq ca.1 child.id))
              ++ child.activities.map (fun a => (child.id, a.id)) } := by
  simp only [ChildRepository.update, rethrowAs, transaction, andThen, guarded,
    ChildRepository.updateBody, call, sqlDriver, Sys.init, List.head?, List.tail, Tables.exec,
    release, ChildRepository.insertParent_sql, ChildRepository.insertActivities_sql,
    ChildRepository.findById_sql]
  rcases ChildRepository.findByIdRows _ _ with e | v <;> simp

/-- C12: for every table state and every child whose id SQL can compare (a
number or a string), when no storage call fails, after
`childRepository.update(child)` the `ParentChild` rows of that child are
exactly the row of `child.parent` (none when there is no parent) and its
`ChildActivity` rows are exactly one row per element of `child.activities`, in
order, whatever rows existed before; the association rows of every other
child are as before. -/
theorem update_replaces_associations (t : Tables) (child : ChildInput)
    (hid : Tables.sqlEq child.id child.id = true) :
    ((ChildRepository.update sqlDriver child
        (Sys.init { tables := t })).2.store.tables.parentChild.filter
          fun pc => Tables.sqlEq pc.2 child.id)
      = child.parent.toList.map (fun p => (p.id, child.id)) ∧
    ((ChildRepository.update sqlDriver child
        (Sys.init { tables := t })).2.store.tables.childActivity.filter
          fun ca => Tables.sqlEq ca.1 child.id)
      = child.activities.map (fun a => (child.id, a.id)) ∧
    ((ChildRepository.update sqlDriver child
        (Sys.init { tables := t })).2.store.tables.parentChild.filter
          fun pc => !(Tables.sqlEq pc.2 child.id))
      = (t.parentChild.filter fun pc => !(Tables.sqlEq pc.2 child.id)) ∧
    ((ChildRepository.update sqlDriver child
        (Sys.init { tables := t })).2.store.tables.childActivity.filter
          fun ca => !(Tables.sqlEq ca.1 child.id))
      = (t.childActivity.filter fun ca => !(Tables.sqlEq ca.1 child.id)) ∧
    (ChildRepository.update sqlDriver child (Sys.init { tables := t })).2.store.tables
      = { t with
          child := t.child.map
            (fun c => if Tables.idIs c.id child.id then { c with name := child.name } else c)
          parentChild :=
            t.parentChild.filter (fun pc => !(Tables.sqlEq pc.2 child.id))
              ++ child.parent.toList.map (fun p => (p.id, child.id))
          childActivity :=
            t.childActivity.filter (fun ca => !(Tables.sqlEq ca.1 child.id))
              ++ child.activities.map (fun a => (child.id, a.id)) } := by
  rw [ChildRepository.update_sql_tables]
  have h1 : ∀ l : List EntityRef,
      (l.map fun p => (p.id, child.id)).filter (fun pc => Tables.sqlEq pc.2 child.id)
        = l.map fun p => (p.id, child.id) := by
    intro l; induction l with
    | nil => rfl
    | cons a l ih => simp [List.filter_cons, hid, ih]
  have h2 : ∀ l : List EntityRef,
      (l.map fun a => (child.id, a.id)).filter (fun ca => Tables.sqlEq ca.1 child.id)
        = l.map fun a => (child.id, a.id) := by
    intro l; induction l with
    | nil => rfl
    | cons a l ih => simp [List.filter_cons, hid, ih]
  have h3 : ∀ l : List EntityRef,
      (l.map fun p => (p.id, child.id)).filter (fun pc => !(Tables.sqlEq pc.2 child.id))
        = [] := by
    intro l; induction l with
    | nil => rfl
    | cons a l ih => simp [List.filter_cons, hid, ih]
  have h4 : ∀ l : List EntityRef,
      (l.map fun a => (child.id, a.id)).filter (fun ca => !(Tables.sqlEq ca.1 child.id))
        = [] := by
    intro l; induction l with
    | nil => rfl
    | cons a l ih => simp [List.filter_cons, hid, ih]
  refine ⟨?_, ?_, ?_, ?_, rfl⟩
  · simp only [List.filter_append, List.filter_filter, h1]
    simp
  · simp only [List.filter_append, List.filter_filter, h2]
    simp
  · simp only [List.filter_append, List.filter_filter, h3]
    simp
  · simp only [List.filter_append, List.filter_filter, h4]
    simp

/-- The tables left by `addActivity` on a store where no call fails: the pair
is appended when no row links the child to the activity. -/
theorem ChildRepository.addActivity_sql_tables (t : Tables) (childId activityId : Col) :
    (ChildRepository.addActivity sqlDriver childId activityId
        (Sys.init { tables := t })).2.store.tables
      = if (t.pairRows childId activityId).isEmpty then
          { t with childActivity := t.childActivity ++ [(childId, activityId)] }
        else t := by
  simp only [ChildRepository.addActivity, rethrowAs, andThen, call, sqlDriver, Sys.init,
    List.head?, List.tail, Tables.exec, Tables.pairRows]
  rcases hrows : t.childActivity.filter
      (fun ca => Tables.sqlEq ca.1 childId && Tables.sqlEq ca.2 activityId) with _ | ⟨r, rs⟩
  · simp only [hrows, List.map_nil, andThen, call, sqlDriver, List.head?, List.tail, Tables.exec,
      ChildRepository.findById_sql, List.isEmpty_nil, if_true]
    rcases ChildRepository.findByIdRows _ _ with e | v <;> simp
  · simp only [hrows, List.map_cons, ChildRepository.findById_sql, List.isEmpty_cons]
    rcases ChildRepository.findByIdRows _ _ with e | v <;> simp

/-- C29: for a child id and an activity id that SQL can compare, on a store
where no call fails, `childRepository.addActivity` leaves `ChildActivity` as
it is when a row already links the two; applying it twice gives the same
table as applying it once; and when the table held at most one such row
before (the composite key), it holds exactly one afterwards. -/
theorem addActivity_is_idempotent (t : Tables) (childId activityId : Col)
    (hc : Tables.sqlEq childId childId = true) (ha : Tables.sqlEq activityId activityId = true) :
    (t.pairRows childId activityId ≠ [] →
      (ChildRepository.addActivity sqlDriver childId activityId
        (Sys.init { tables := t })).2.store.tables = t) ∧
    (ChildRepository.addActivity sqlDriver childId activityId
        (Sys.init { tables := (ChildRepository.addActivity sqlDriver childId activityId
          (Sys.init { tables := t })).2.store.tables })).2.store.tables
      = (ChildRepository.addActivity sqlDriver childId activityId
          (Sys.init { tables := t })).2.store.tables ∧
    ((t.pairRows childId activityId).length ≤ 1 →
      ((ChildRepository.addActivity sqlDriver childId activityId
        (Sys.init { tables := t })).2.store.tables.pairRows childId activityId).length = 1) := by
  simp only [ChildRepository.addActivity_sql_tables]
  rcases hrows : t.pairRows childId activityId with _ | ⟨r, rs⟩
  · have hnew : ({ t with childActivity := t.childActivity ++ [(childId, activityId)] } :
        Tables).pairRows childId activityId = [(childId, activityId)] := by
      have := hrows
      simp only [Tables.pairRows] at this ⊢
      simp [List.filter_append, this, hc, ha]
    simp [hnew, hrows]
  · simp [hrows]

/-- Witness of `setParent_leaves_exactly_one_row`: child 1 had two parent rows
and has the single row of parent 7 afterwards; the row of child 2 stays. -/
theorem setParent_leaves_exactly_one_row_witness :
    Tables.sqlEq (.num 1) (.num 1) = true ∧
    ((ChildRepository.setParent sqlDriver (.num 1) (.num 7)
        (Sys.init { tables := familyTables })).2.store.tables.parentChild.filter
          fun pc => Tables.sqlEq pc.2 (.num 1))
      = [(.num 7, .num 1)] ∧
    (ChildRepository.setParent sqlDriver (.num 1) (.num 7)
        (Sys.init { tables := familyTables })).2.store.tables.parentChild
      = [(.num 5, .num 2), (.num 7, .num 1)] :=
  ⟨rfl, (setParent_leaves_exactly_one_row familyTables (.num 1) (.num 7) rfl).1, rfl⟩

/-- Witness of `update_replaces_associations`: child 1 gets parent 7 and the
activities 11 and 12 in place of its former rows. -/
theorem update_replaces_associations_witness :
    Tables.sqlEq (.num 1) (.num 1) = true ∧
    ((ChildRepository.update sqlDriver
        { id := .num 1, name := .str "Tommy", parent := some { id := .num 7 }
          activities := [{ id := .num 11 }, { id := .num 12 }] }
        (Sys.init { tables := familyTables })).2.store.tables.parentChild.filter
          fun pc => Tables.sqlEq pc.2 (.num 1))
      = [(.num 7, .num 1)] ∧
    ((ChildRepository.update sqlDriver
        { id := .num 1, name := .str "Tommy", parent := some { id := .num 7 }
          activities := [{ id := .num 11 }, { id := .num 12 }] }
        (Sys.init { tables := familyTables })).2.store.tables.childActivity.filter
          fun ca => Tables.sqlEq ca.1 (.num 1))
      = [(.num 1, .num 11), (.num 1, .num 12)] :=
  ⟨rfl,
    (update_replaces_associations familyTables
      { id := .num 1, name := .str "Tommy", parent := some { id := .num 7 }
        activities := [{ id := .num 11 }, { id := .num 12 }] } rfl).1,
    (update_replaces_associations familyTables
      { id := .num 1, name := .str "Tommy", parent := some { id := .num 7 }
        activities := [{ id := .num 11 }, { id := .num 12 }] } rfl).2.1⟩

/-- Witness of `addActivity_is_idempotent`: child 1 is already linked to
activity 10, so the table is unchanged. -/
theorem addActivity_is_idempotent_witness :
    Tables.sqlEq (.num 1) (.num 1) = true ∧ Tables.sqlEq (.num 10) (.num 10) = true ∧
    familyTables.pairRows (.num 1) (.num 10) ≠ [] ∧
    (ChildRepository.addActivity sqlDriver (.num 1) (.num 10)
        (Sys.init { tables := familyTables })).2.store.tables = familyTables :=
  ⟨rfl, rfl, by decide,
    (addActivity_is_idempotent familyTables (.num 1) (.num 10) rfl rfl).1 (by decide)⟩

/-! ## `vehicleService.js` -/

/-- C18, counterexample: with a parent object and the non-integer seat count
5/2, `createVehicle` does not reject, and `vehicleRepository.create` is called
with the data. -/
theorem createVehicle_accepts_non_integer_seats :
    ¬ Num.isPositiveInteger (Num.fin (5 / 2)) ∧
    (VehicleService.createVehicle stubRepos
        { parent := some { id := .num 1 }, availableSeats := .fin (5 / 2) }
        (Svc.init {})).1 = .ok none ∧
    (VehicleService.createVehicle stubRepos
        { parent := some { id := .num 1 }, availableSeats := .fin (5 / 2) }
        (Svc.init {})).2.calls =
      [.vehicleCreate { parent := some { id := .num 1 }, availableSeats := .fin (5 / 2) },
       .vehicleFindById (.id (.num 1))] := by
  refine ⟨?_, ?_, ?_⟩
  · rintro ⟨_, n, hn⟩
    have h2 : (5 : ℚ) = 2 * n := by linarith
    have h3 : (5 : ℤ) = 2 * n := by exact_mod_cast h2
    omega
  · simp [VehicleService.createVehicle, Col.truthy, Num.le, Num.toNumber, seq, invoke,
      stubRepos, Svc.init]
    norm_num
    rfl
  · simp [VehicleService.createVehicle, Col.truthy, Num.le, Num.toNumber, seq, invoke,
      stubRepos, Svc.init]
    norm_num
    rfl

/-- C18, amended: whatever the repositories and the rest of the data, a seat
count that is zero or negative makes `createVehicle` reject without any call
of a repository, so `vehicleRepository.create` is never called. -/
theorem createVehicle_rejects_non_positive_seats {ρ : Type} (r : Repos ρ)
    (vehicleData : VehiclePart) (s : Svc ρ) (q : ℚ)
    (hseats : vehicleData.availableSeats = Num.fin q) (hq : q ≤ 0) :
    (∃ e, (VehicleService.createVehicle r vehicleData s).1 = .error e) ∧
    (VehicleService.createVehicle r vehicleData s).2.calls = s.calls := by
  unfold VehicleService.createVehicle
  rcases hp : vehicleData.parent with _ | parent
  · exact ⟨⟨_, rfl⟩, rfl⟩
  · simp only [hseats]
    by_cases hid : parent.id.truthy = true
    · simp [hid, Num.le, Num.toNumber, hq, fail]
    · simp [hid, fail]

theorem createVehicle_rejects_non_positive_seats_witness :
    (∃ e, (VehicleService.createVehicle stubRepos
        { parent := some { id := .num 1 }, availableSeats := .fin 0 } (Svc.init {})).1
          = .error e) ∧
    (VehicleService.createVehicle stubRepos
        { parent := some { id := .num 1 }, availableSeats := .fin 0 } (Svc.init {})).2.calls
          = (Svc.init ({} : Stub)).calls :=
  createVehicle_rejects_non_positive_seats stubRepos
    { parent := some { id := .num 1 }, availableSeats := .fin 0 } (Svc.init {}) 0 rfl
    (le_refl 0)

/-- C19: for the data `{ parentId, availableSeats }` that the controller and
the tests build, which has no property `parent`, `createVehicle` throws a
`TypeError` on reading `vehicleData.parent.id` and calls no repository,
whatever the two values are. -/
theorem createVehicle_throws_on_controller_shape {ρ : Type} (r : Repos ρ)
    (parentId : Col) (availableSeats : Num) (s : Svc ρ) :
    VehicleService.createVehicle r { parentId := parentId, availableSeats := availableSeats } s
      = (.error (typeError "id"), s) := rfl

/-- C20: when `findById` resolves and `isUsedInTransports(id)` resolves to
`used`: if `used` is true, `deleteVehicle` rejects with 'Cannot delete vehicle
associated with transports' after the two reads only; if it is false,
`deleteVehicle` calls `vehicleRepository.delete(id)` next and returns its
outcome. -/
theorem deleteVehicle_blocked_while_used {ρ : Type} (r : Repos ρ) (id : Col) (s : Svc ρ)
    (found : Option Vehicle) (used : Bool)
    (hfound : (r.vehicleFindById (.id id) s.repo).1 = .ok found)
    (hused : (r.vehicleIsUsedInTransports id (r.vehicleFindById (.id id) s.repo).2).1
      = .ok used) :
    (used = true →
      (VehicleService.deleteVehicle r id s).1
        = .error (JsError.mk1 "Cannot delete vehicle associated with transports") ∧
      (VehicleService.deleteVehicle r id s).2.calls
        = s.calls ++ [.vehicleFindById (.id id), .vehicleIsUsedInTransports id] ∧
      RepoCall.vehicleDelete id ∉
        [RepoCall.vehicleFindById (.id id), RepoCall.vehicleIsUsedInTransports id]) ∧
    (used = false →
      (VehicleService.deleteVehicle r id s).1
        = (r.vehicleDelete id (r.vehicleIsUsedInTransports id
            (r.vehicleFindById (.id id) s.repo).2).2).1 ∧
      (VehicleService.deleteVehicle r id s).2.calls
        = s.calls ++ [.vehicleFindById (.id id), .vehicleIsUsedInTransports id,
            .vehicleDelete id]) := by
  constructor
  · intro hu
    subst hu
    simp [VehicleService.deleteVehicle, seq, invoke, hfound, hused, fail]
  · intro hu
    subst hu
    simp [VehicleService.deleteVehicle, seq, invoke, hfound, hused]

theorem deleteVehicle_blocked_while_used_witness :
    ((true = true →
      (VehicleService.deleteVehicle stubRepos (.num 1) (Svc.init { used := true })).1
        = .error (JsError.mk1 "Cannot delete vehicle associated with transports") ∧
      (VehicleService.deleteVehicle stubRepos (.num 1) (Svc.init { used := true })).2.calls
        = (Svc.init ({ used := true } : Stub)).calls
          ++ [.vehicleFindById (.id (.num 1)), .vehicleIsUsedInTransports (.num 1)] ∧
      RepoCall.vehicleDelete (.num 1) ∉
        [RepoCall.vehicleFindById (.id (.num 1)),
         RepoCall.vehicleIsUsedInTransports (.num 1)]) ∧
    (true = false →
      (VehicleService.deleteVehicle stubRepos (.num 1) (Svc.init { used := true })).1
        = (stubRepos.vehicleDelete (.num 1) (stubRepos.vehicleIsUsedInTransports (.num 1)
            (stubRepos.vehicleFindById (.id (.num 1))
              (Svc.init ({ used := true } : Stub)).repo).2).2).1 ∧
      (VehicleService.deleteVehicle stubRepos (.num 1) (Svc.init { used := true })).2.calls
        = (Svc.init ({ used := true } : Stub)).calls
          ++ [.vehicleFindById (.id (.num 1)), .vehicleIsUsedInTransports (.num 1),
            .vehicleDelete (.num 1)])) :=
  deleteVehicle_blocked_while_used stubRepos (.num 1) (Svc.init { used := true }) none true
    rfl rfl

/-! ## `transportService.js`: the validator -/

/-- What an accepted transport satisfies: each check of the validator in turn. -/
theorem TransportService.validateTransportData_ok (t : TransportObj)
    (h : TransportService.validateTransportData (some t) = .ok ()) :
    (t.type = Col.str "OUTWARD" ∨ t.type = Col.str "RETURN") ∧
    t.dateStart.truthy = true ∧ t.dateStart.isNaN = false ∧
    t.dateEnd.truthy = true ∧ t.dateEnd.isNaN = false ∧
    t.dateEnd.le t.dateStart = false ∧
    missingText "transport.pickupLocation" t.pickupLocation = .ok false ∧
    (∃ a, t.activity = some a ∧ a.id.truthy = true) ∧
    ∃ v, t.vehicle = some v ∧ v.availableSeats.truthy = true ∧ v.availableSeats.isNaN = false := by
  unfold TransportService.validateTransportData at h
  simp only [] at h
  by_cases h1 : (!t.type.truthy || !(t.type == Col.str "OUTWARD" || t.type == Col.str "RETURN"))
      = true
  · rw [if_pos h1] at h; cases h
  rw [if_neg h1] at h
  by_cases h2 : (!t.dateStart.truthy || t.dateStart.isNaN) = true
  · rw [if_pos h2] at h; cases h
  rw [if_neg h2] at h
  by_cases h3 : (!t.dateEnd.truthy || t.dateEnd.isNaN) = true
  · rw [if_pos h3] at h; cases h
  rw [if_neg h3] at h
  by_cases h4 : t.dateEnd.le t.dateStart = true
  · rw [if_pos h4] at h; cases h
  rw [if_neg h4] at h
  rcases hm : missingText "transport.pickupLocation" t.pickupLocation with e | b
  · simp [hm, bind, Except.bind] at h
  simp only [hm, bind, Except.bind] at h
  by_cases h5 : b = true
  · rw [if_pos h5] at h; cases h
  rw [if_neg h5] at h
  by_cases h6 : (!(t.activity.map fun a => a.id.truthy).getD false) = true
  · rw [if_pos h6] at h; cases h
  rw [if_neg h6] at h
  rcases hv : t.vehicle with _ | v
  · simp only [hv] at h; cases h
  simp only [hv] at h
  by_cases h7 : (!v.availableSeats.truthy || v.availableSeats.isNaN) = true
  · rw [if_pos h7] at h; cases h
  simp at h1 h2 h3 h4 h5 h6 h7
  rcases ha : t.activity with _ | a
  · simp [ha] at h6
  · simp [ha] at h6
    subst h5
    exact ⟨or_iff_not_imp_left.mpr h1.2, h2.1, h2.2, h3.1, h3.2, h4, rfl, ⟨a, rfl, h6⟩, v, rfl, h7.1, h7.2⟩

/-- A rejected transport stops `createTransport` before any repository call. -/
theorem TransportService.createTransport_rejected {ρ : Type} (r : Repos ρ)
    (transportData : Option TransportObj) (s : Svc ρ) (e : JsError)
    (h : TransportService.validateTransportData transportData = .error e) :
    TransportService.createTransport r transportData s = (.error e, s) := by
  simp [TransportService.createTransport, seq, check, h]

/-- The accepted sample request. -/
theorem TransportService.validateTransportData_schoolRun (seats : ℚ) (h : seats ≠ 0) :
    TransportService.validateTransportData
      (some { schoolRun with vehicle := some { availableSeats := .fin seats } }) = .ok () := by
  simp [TransportService.validateTransportData, schoolRun, Col.truthy, Num.truthy, Num.isNaN,
    Num.toNumber, Num.le, missingText, jsBlank, isJsWhite, bind, Except.bind, h, pure,
    Except.pure]
  norm_num

/-- C17, counterexample: transport data whose vehicle has the seat count 5/2,
not a positive integer, is accepted by the validator, and `createTransport`
hands it to `transportRepository.create`. -/
theorem validateTransportData_accepts_non_integer_seats :
    ¬ Num.isPositiveInteger (Num.fin (5 / 2)) ∧
    TransportService.validateTransportData
      (some { schoolRun with vehicle := some { availableSeats := .fin (5 / 2) } }) = .ok () ∧
    (TransportService.createTransport stubRepos
      (some { schoolRun with vehicle := some { availableSeats := .fin (5 / 2) } })
      (Svc.init { activity := some swimming })).2.calls =
      [.activityFindById (.num 1),
       .transportCreate { schoolRun with vehicle := some { availableSeats := .fin (5 / 2) } }] := by
  have hv := TransportService.validateTransportData_schoolRun (5 / 2) (by norm_num)
  refine ⟨?_, hv, ?_⟩
  · rintro ⟨_, n, hn⟩
    have h2 : (5 : ℚ) = 2 * n := by linarith
    have h3 : (5 : ℤ) = 2 * n := by exact_mod_cast h2
    omega
  · simp only [TransportService.createTransport, seq, check, hv]
    rfl

/-- The last check of the validator: when the transport passes every check
with some vehicle, it passes the checks before the last one with any other
vehicle, and the outcome is decided by the seat count of that vehicle. -/
theorem TransportService.validateTransportData_seats (t : TransportObj) (v other : VehiclePart)
    (hv : t.vehicle = some v)
    (hok : TransportService.validateTransportData (some { t with vehicle := some other })
      = .ok ()) :
    TransportService.validateTransportData (some t)
      = if (!v.availableSeats.truthy || v.availableSeats.isNaN) = true then
          .error (JsError.mk1 "Vehicle's available seats info is required")
        else .ok () := by
  obtain ⟨h1, h2, h3, h4, h5, h6, h7, ⟨a, ha, hat⟩, _⟩ :=
    TransportService.validateTransportData_ok _ hok
  simp only [] at h1 h2 h3 h4 h5 h6 h7 ha
  have hc1 : (!t.type.truthy || !(t.type == Col.str "OUTWARD" || t.type == Col.str "RETURN"))
      = false := by
    rcases h1 with h1 | h1 <;> simp [h1, Col.truthy]
  unfold TransportService.validateTransportData
  simp only [hc1, h2, h3, h4, h5, h6, h7, ha, hat, hv, bind, Except.bind, Option.map_some',
    Option.getD_some, Bool.not_true, Bool.not_false, Bool.false_or, Bool.false_eq_true,
    if_false, ite_false]
  rfl

/-- C17, amended: for transport data whose vehicle has a numeric seat count,
the validator rejects the data when the count is 0 or `NaN`, and likewise
when it is `null` or missing, and `createTransport` then rejects with the
same error before any repository call, so that nothing is inserted; when the
data passes the other checks the error is the one of the seat count. The
validator makes no test of integrality: data that it accepts with one seat is
accepted with every positive seat count, integer or not. -/
theorem validateTransportData_rejects_zero_seats_without_integer_test {ρ : Type} (r : Repos ρ)
    (t : TransportObj) (v : VehiclePart) (s : Svc ρ) (hv : t.vehicle = some v) :
    ((v.availableSeats = Num.fin 0 ∨ v.availableSeats = Num.nan ∨ v.availableSeats = Num.null
        ∨ v.availableSeats = Num.undefined) →
      (∃ e, TransportService.validateTransportData (some t) = .error e ∧
        TransportService.createTransport r (some t) s = (.error e, s)) ∧
      (TransportService.validateTransportData
          (some { t with vehicle := some { v with availableSeats := Num.fin 1 } }) = .ok () →
        TransportService.validateTransportData (some t)
          = .error (JsError.mk1 "Vehicle's available seats info is required"))) ∧
    (∀ q : ℚ, 0 < q → v.availableSeats = Num.fin q →
      TransportService.validateTransportData
          (some { t with vehicle := some { v with availableSeats := Num.fin 1 } }) = .ok () →
      TransportService.validateTransportData (some t) = .ok ()) := by
  constructor
  · intro hbad
    have hfalsy : (!v.availableSeats.truthy || v.availableSeats.isNaN) = true := by
      rcases hbad with h | h | h | h <;> simp [h, Num.truthy, Num.isNaN, Num.toNumber]
    constructor
    · rcases hval : TransportService.validateTransportData (some t) with e | u
      · exact ⟨e, rfl, TransportService.createTransport_rejected r (some t) s e hval⟩
      · obtain ⟨_, _, _, _, _, _, _, _, w, hw, htruthy, hnan⟩ :=
          TransportService.validateTransportData_ok t hval
        rw [hv] at hw
        cases hw
        simp [htruthy, hnan] at hfalsy
    · intro hok
      rw [TransportService.validateTransportData_seats t v _ hv hok, if_pos hfalsy]
  · intro q hq hseats hok
    have hfine : (!v.availableSeats.truthy || v.availableSeats.isNaN) = false := by
      simp [hseats, Num.truthy, Num.isNaN, Num.toNumber, ne_of_gt hq]
    rw [TransportService.validateTransportData_seats t v _ hv hok, hfine]
    rfl

theorem validateTransportData_rejects_zero_seats_without_integer_test_witness :
    ((∃ e, TransportService.validateTransportData
          (some { schoolRun with vehicle := some { availableSeats := Num.fin 0 } }) = .error e ∧
        TransportService.createTransport stubRepos
          (some { schoolRun with vehicle := some { availableSeats := Num.fin 0 } }) (Svc.init {})
          = (.error e, Svc.init {})) ∧
      TransportService.validateTransportData
          (some { schoolRun with vehicle := some { availableSeats := Num.fin 0 } })
        = .error (JsError.mk1 "Vehicle's available seats info is required")) ∧
    TransportService.validateTransportData
        (some { schoolRun with vehicle := some { availableSeats := Num.fin (5 / 2) } }) = .ok () :=
  ⟨⟨((validateTransportData_rejects_zero_seats_without_integer_test stubRepos
        { schoolRun with vehicle := some { availableSeats := Num.fin 0 } }
        { availableSeats := Num.fin 0 } (Svc.init {}) rfl).1 (Or.inl rfl)).1,
    ((validateTransportData_rejects_zero_seats_without_integer_test stubRepos
        { schoolRun with vehicle := some { availableSeats := Num.fin 0 } }
        { availableSeats := Num.fin 0 } (Svc.init {}) rfl).1 (Or.inl rfl)).2
      (TransportService.validateTransportData_schoolRun 1 one_ne_zero)⟩,
   (validateTransportData_rejects_zero_seats_without_integer_test stubRepos
      { schoolRun with vehicle := some { availableSeats := Num.fin (5 / 2) } }
      { availableSeats := Num.fin (5 / 2) } (Svc.init {}) rfl).2 (5 / 2) (by norm_num) rfl
      (TransportService.validateTransportData_schoolRun 1 one_ne_zero)⟩

/-- C21: for transport data whose dates are the numbers `a` and `b`, the
validator accepts only if `a < b`; and when the type is one of the two values,
both dates are non-zero and `b ≤ a`, `createTransport` rejects with 'End date
must be after start date' without any repository call. -/
theorem end_date_must_follow_start_date {ρ : Type} (r : Repos ρ) (t : TransportObj)
    (s : Svc ρ) (a b : ℚ) (hstart : t.dateStart = Num.fin a) (hend : t.dateEnd = Num.fin b) :
    (TransportService.validateTransportData (some t) = .ok () → a < b) ∧
    ((t.type = Col.str "OUTWARD" ∨ t.type = Col.str "RETURN") → a ≠ 0 → b ≠ 0 → b ≤ a →
      TransportService.createTransport r (some t) s
        = (.error (JsError.mk1 "End date must be after start date"), s)) := by
  constructor
  · intro h
    obtain ⟨_, _, _, _, _, hle, _⟩ := TransportService.validateTransportData_ok t h
    simpa [hstart, hend, Num.le, Num.toNumber] using hle
  · intro htype ha hb hba
    apply TransportService.createTransport_rejected
    rcases htype with htype | htype <;>
      simp [TransportService.validateTransportData, htype, hstart, hend, Col.truthy, Num.truthy,
        Num.isNaN, Num.toNumber, Num.le, ha, hb, hba] <;>
      rfl

theorem end_date_must_follow_start_date_witness :
    (1707123456 : ℚ) < 1707127056 ∧
    TransportService.createTransport stubRepos
      (some { schoolRun with dateStart := .fin 1707127056, dateEnd := .fin 1707123456 })
      (Svc.init {})
      = (.error (JsError.mk1 "End date must be after start date"), Svc.init {}) :=
  ⟨(end_date_must_follow_start_date stubRepos schoolRun (Svc.init {}) 1707123456 1707127056
      rfl rfl).1 (TransportService.validateTransportData_schoolRun 3 (by norm_num)),
   (end_date_must_follow_start_date stubRepos
      { schoolRun with dateStart := .fin 1707127056, dateEnd := .fin 1707123456 }
      (Svc.init {}) 1707127056 1707123456 rfl rfl).2 (Or.inl rfl) (by norm_num) (by norm_num)
      (by norm_num)⟩

/-- C22: the validator accepts a transport only if its type is the string
OUTWARD or the string RETURN; with any other type, or none, it rejects with
the transport-type error whatever the other properties are. -/
theorem type_must_be_outward_or_return (t : TransportObj) :
    (TransportService.validateTransportData (some t) = .ok () →
      t.type = Col.str "OUTWARD" ∨ t.type = Col.str "RETURN") ∧
    (¬ (t.type = Col.str "OUTWARD" ∨ t.type = Col.str "RETURN") →
      TransportService.validateTransportData (some t)
        = .error (JsError.mk1 "Transport type must be either \"OUTWARD\" or \"RETURN\"")) := by
  constructor
  · intro h
    exact (TransportService.validateTransportData_ok t h).1
  · intro h
    have h1 : (!t.type.truthy || !(t.type == Col.str "OUTWARD" || t.type == Col.str "RETURN"))
        = true := by
      simp only [not_or] at h
      simp [h.1, h.2]
    unfold TransportService.validateTransportData
    simp only []
    rw [if_pos h1]
    rfl

theorem type_must_be_outward_or_return_witness :
    (schoolRun.type = Col.str "OUTWARD" ∨ schoolRun.type = Col.str "RETURN") ∧
    TransportService.validateTransportData (some { schoolRun with type := .undefined })
      = .error (JsError.mk1 "Transport type must be either \"OUTWARD\" or \"RETURN\"") :=
  ⟨(type_must_be_outward_or_return schoolRun).1
      (TransportService.validateTransportData_schoolRun 3 (by norm_num)),
   (type_must_be_outward_or_return { schoolRun with type := .undefined }).2 (by decide)⟩

/-- C23: the transport data of the tests of the service, with the type
'outward', an `activityId` and three seats, is rejected by the validator,
and the message is the upper-case one, not the message the tests expect;
with the type 'OUTWARD' the same data is rejected for its missing
`activity.id`. -/
theorem validateTransportData_rejects_test_data :
    TransportService.validateTransportData (some testTransportData)
      = .error (JsError.mk1 "Transport type must be either \"OUTWARD\" or \"RETURN\"") ∧
    TransportService.validateTransportData (some { testTransportData with type := .str "invalid" })
      ≠ .error (JsError.mk1 "Transport type must be either \"outward\" or \"return\"") ∧
    TransportService.validateTransportData (some { testTransportData with type := .str "OUTWARD" })
      = .error (JsError.mk1 "Activity is required") := by
  refine ⟨rfl, ?_, ?_⟩
  · intro h
    have h2 := congrArg JsError.message (Except.error.inj h)
    revert h2
    decide
  · simp [TransportService.validateTransportData, testTransportData, Col.truthy, Num.truthy,
      Num.isNaN, Num.toNumber, Num.le, missingText, jsBlank, isJsWhite, bind, Except.bind, pure,
      Except.pure]
    norm_num
    rfl

/-! ## `transportService.js`: updating a transport -/

/-- C15 (evaluation at the failing input): for transport 1 of the scenario and
a valid update with vehicle data, `updateTransport` hands
`transportRepository.update` an instance whose `activity` and `vehicle` are
`null`; on the transactional store `update` then throws a `TypeError` on
reading `transportData.activity.id`, and the tables, with the transport row
and the four seats of vehicle 1, are as before. -/
theorem updateTransport_hands_over_null_activity_and_vehicle :
    TransportService.validateTransportData (some updateRequest) = .ok () ∧
    (TransportService.updateTransport stubRepos (.num 1) (some updateRequest)
        (Svc.init { transport := some storedTransport })).2.calls =
      [.transportFindById (.num 1),
       .transportUpdate (.num 1)
         (TransportService.updatedTransport (.num 1) updateRequest storedTransport)] ∧
    (TransportService.updatedTransport (.num 1) updateRequest storedTransport).activity = none ∧
    (TransportService.updatedTransport (.num 1) updateRequest storedTransport).vehicle = none ∧
    TransportService.toInput?
        (TransportService.updatedTransport (.num 1) updateRequest storedTransport) =
      some { type := .str "RETURN", dateStart := .num 300, dateEnd := .num 400
             pickupLocation := .str "Stadium", activity := none, vehicle := none } ∧
    (TransportRepository.update sqlDriver (.num 1)
        { type := .str "RETURN", dateStart := .num 300, dateEnd := .num 400
          pickupLocation := .str "Stadium", activity := none, vehicle := none }
        (Sys.init { tables := scenarioTables })).1
      = .error (TransportRepository.nullError "id") ∧
    (TransportRepository.update sqlDriver (.num 1)
        { type := .str "RETURN", dateStart := .num 300, dateEnd := .num 400
          pickupLocation := .str "Stadium", activity := none, vehicle := none }
        (Sys.init { tables := scenarioTables })).2.store.tables = scenarioTables := by
  have hv : TransportService.validateTransportData (some updateRequest) = .ok () := by
    simp [TransportService.validateTransportData, updateRequest, Col.truthy, Num.truthy,
      Num.isNaN, Num.toNumber, Num.le, missingText, jsBlank, isJsWhite, bind, Except.bind, pure,
      Except.pure]
    norm_num
  refine ⟨hv, ?_, rfl, rfl, ?_, rfl, rfl⟩
  · simp only [TransportService.updateTransport, seq, invoke, stubRepos, Svc.init, check, hv]
    rfl
  · simp [TransportService.toInput?, TransportService.updatedTransport, updateRequest,
      storedTransport, Num.orElse, Num.truthy, Num.toCol?, Col.orElse, Col.truthy]

/-! ## `parentService.js` -/

theorem includesChars_singleton (c : Char) (l : List Char) :
    includesChars [c] l = l.contains c := by
  induction l with
  | nil => rfl
  | cons h t ih =>
    simp only [includesChars, startsWithChars, ih, List.contains_cons]
    cases t <;> simp [startsWithChars, eq_comm]

theorem ParentService.phoneMatches_eq (s : String) :
    ParentService.phoneMatches s = ParentService.tenDigitMobile s := by
  unfold ParentService.phoneMatches ParentService.tenDigitMobile
  rcases s.toList with _ | ⟨a, _ | ⟨b, rest⟩⟩
  · rfl
  · simp
  · simp only [List.length_cons, List.all_cons, List.take_succ_cons, List.take_zero]
    have h0 : Char.isDigit '0' = true := by decide
    have h6 : Char.isDigit '6' = true := by decide
    have h7 : Char.isDigit '7' = true := by decide
    have h67 : ('6' : Char) ≠ '7' := by decide
    by_cases ha : a = '0'
    · subst ha
      by_cases hb6 : b = '6'
      · subst hb6
        simp [h0, h6]
      · by_cases hb7 : b = '7'
        · subst hb7
          simp [h0, h7]
        · have e6 : (b == '6') = false := beq_eq_false_iff_ne.mpr hb6
          have e7 : (b == '7') = false := beq_eq_false_iff_ne.mpr hb7
          simp [e6, e7]
    · have e0 : (a == '0') = false := beq_eq_false_iff_ne.mpr ha
      simp [e0]

theorem ParentService.missing_step (what msg : String) (c : Col) (k : Except JsError Unit) :
    ((missingText what c >>= fun b =>
        if b = true then throw (JsError.mk1 msg) else k) = .ok ()) ↔
      (ParentService.isNonBlank c = true ∧ k = .ok ()) := by
  cases c with
  | undefined => simp [missingText, ParentService.isNonBlank, bind, Except.bind]
  | null => simp [missingText, ParentService.isNonBlank, bind, Except.bind]
  | num n =>
    by_cases hn : n = 0 <;> simp [missingText, ParentService.isNonBlank, bind, Except.bind, hn]
  | str s =>
    by_cases hb : jsBlank s = true
    · simp [missingText, ParentService.isNonBlank, bind, Except.bind, hb]
    · have hne : s ≠ "" := by
        rintro rfl
        exact hb rfl
      simp [missingText, ParentService.isNonBlank, bind, Except.bind, hb, hne]

theorem ParentService.tenDigitMobile_not_blank (p : String)
    (h : ParentService.tenDigitMobile p = true) : jsBlank p = false := by
  unfold ParentService.tenDigitMobile at h
  unfold jsBlank
  generalize p.toList = l at h ⊢
  rcases l with _ | ⟨a, _ | ⟨b, rest⟩⟩
  · simp at h
  · simp at h
  · have hw : isJsWhite '0' = false := by decide
    simp only [List.take_succ_cons, List.take_zero, Bool.and_eq_true, Bool.or_eq_true,
      beq_iff_eq, List.cons.injEq, and_true] at h
    have ha : a = '0' := by
      rcases h.2 with h2 | h2 <;> exact h2.1
    subst ha
    simp [hw]

theorem ParentService.phone_step (phone : Col) :
    ((missingText "data.phone" phone >>= fun noPhone =>
        if noPhone = true then throw (JsError.mk1 "Parent phone is required") else
        if (!ParentService.phoneMatches phone.toStr) = true then
          throw (JsError.mk1
            "Invalid phone format, must start with 06 or 07 and contain 10 digits")
        else pure ()) = .ok ()) ↔
      (match phone with
        | .str p => ParentService.tenDigitMobile p
        | _ => false) = true := by
  rw [ParentService.missing_step]
  cases phone with
  | undefined => simp [ParentService.isNonBlank]
  | null => simp [ParentService.isNonBlank]
  | num n => simp [ParentService.isNonBlank]
  | str p =>
    simp only [Col.toStr, ParentService.phoneMatches_eq, ParentService.isNonBlank]
    by_cases hp : ParentService.tenDigitMobile p = true
    · simp [hp, ParentService.tenDigitMobile_not_blank p hp, pure, Except.pure]
    · simp [hp]

/-- The validator of parents accepts exactly the well-formed data. -/
theorem ParentService.validateParentData_ok_iff (data : ParentData) :
    ParentService.validateParentData data = .ok () ↔ ParentService.wellFormed data = true := by
  rcases data with ⟨name, email, phone⟩
  unfold ParentService.validateParentData ParentService.wellFormed
  simp only [ParentService.missing_step, Bool.and_eq_true]
  cases email with
  | str e =>
    simp only []
    by_cases hat : e.toList.contains '@' = true
    · have hinc : jsIncludes e "@" = true := by
        rw [jsIncludes]
        exact (includesChars_singleton '@' e.toList).trans hat
      rw [if_neg (by simp [hinc]), ParentService.phone_step]
      simp only [hat, Bool.and_true]
      tauto
    · have hinc : jsIncludes e "@" = false := by
        rw [jsIncludes]
        exact (includesChars_singleton '@' e.toList).trans (by simpa using hat)
      rw [if_pos (by simp [hinc])]
      simp only [hat]
      simp
  | undefined => simp [ParentService.isNonBlank]
  | null => simp [ParentService.isNonBlank]
  | num n => simp [ParentService.isNonBlank]

/-- C26: the validator of parents accepts the data exactly when the name is
not blank, the email is not blank and contains `@`, and the phone is ten
digits that begin with 06 or 07; and when it rejects with an error,
`createParent` rejects with that error without any repository call, and
`updateParent` calls `parentRepository.findById` only. -/
theorem parent_validator_accepts_exactly_well_formed_data {ρ : Type} (r : Repos ρ) (id : Col)
    (data : ParentData) (s : Svc ρ) :
    (ParentService.validateParentData data = .ok () ↔ ParentService.wellFormed data = true) ∧
    (∀ e, ParentService.validateParentData data = .error e →
      ParentService.createParent r data s = (.error e, s) ∧
      (∃ e2, (ParentService.updateParent r id data s).1 = .error e2) ∧
      (ParentService.updateParent r id data s).2.calls = s.calls ++ [.parentFindById id]) := by
  refine ⟨ParentService.validateParentData_ok_iff data, ?_⟩
  intro e he
  refine ⟨?_, ?_, ?_⟩
  · simp [ParentService.createParent, seq, check, he]
  · simp only [ParentService.updateParent, seq, invoke]
    rcases r.parentFindById id s.repo with ⟨_ | _ | p, s1⟩ <;> simp [fail, check, he, seq]
  · simp only [ParentService.updateParent, seq, invoke]
    rcases r.parentFindById id s.repo with ⟨_ | _ | p, s1⟩ <;> simp [fail, check, he, seq]

theorem parent_validator_accepts_exactly_well_formed_data_witness :
    ParentService.validateParentData
        { name := .str "J. Doe", email := .str "j@x.com", phone := .str "0612345678" } = .ok () ∧
    ParentService.createParent stubRepos
        { name := .str "J. Doe", email := .str "j.x.com", phone := .str "0612345678" }
        (Svc.init {})
      = (.error (JsError.mk1 "Invalid email format, must contain @"), Svc.init {}) ∧
    (ParentService.updateParent stubRepos (.num 1)
        { name := .str "J. Doe", email := .str "j.x.com", phone := .str "0612345678" }
        (Svc.init {})).2.calls = [.parentFindById (.num 1)] :=
  ⟨(parent_validator_accepts_exactly_well_formed_data stubRepos (.num 1)
      { name := .str "J. Doe", email := .str "j@x.com", phone := .str "0612345678" }
      (Svc.init {})).1.mpr (by decide),
   ((parent_validator_accepts_exactly_well_formed_data stubRepos (.num 1)
      { name := .str "J. Doe", email := .str "j.x.com", phone := .str "0612345678" }
      (Svc.init {})).2 _ rfl).1,
   ((parent_validator_accepts_exactly_well_formed_data stubRepos (.num 1)
      { name := .str "J. Doe", email := .str "j.x.com", phone := .str "0612345678" }
      (Svc.init {})).2 (JsError.mk1 "Invalid email format, must contain @") rfl).2.2⟩

/-! ## `childService.js` -/

/-- When `findById` yields no child, `getChildById` throws the not-found error
after that one call. -/
theorem ChildService.getChildById_none {ρ : Type} (r : Repos ρ) (id : Col) (s : Svc ρ)
    (h : (r.childFindById id s.repo).1 = .ok none) :
    ChildService.getChildById r id s =
      (.error (JsError.mk1 ("Child with id " ++ id.toStr ++ " not found")),
       { repo := (r.childFindById id s.repo).2, calls := s.calls ++ [.childFindById id] }) := by
  simp [ChildService.getChildById, seq, invoke, h, fail]

/-- A step that throws ends the sequence. -/
theorem seq_error {ρ α β : Type} (x : SAct ρ α) (f : α → SAct ρ β) (s s1 : Svc ρ) (e : JsError)
    (h : x s = (.error e, s1)) : seq x f s = (.error e, s1) := by
  simp [seq, h]

/-- A step that returns hands its value to the rest of the sequence. -/
theorem seq_ok {ρ α β : Type} (x : SAct ρ α) (f : α → SAct ρ β) (s s1 : Svc ρ) (a : α)
    (h : x s = (.ok a, s1)) : seq x f s = f a s1 := by
  simp [seq, h]

/-- C27: when `childRepository.findById` yields no child for the id, each of
`updateChild`, `deleteChild`, `addActivityToChild`, `removeActivityFromChild`,
`setParentForChild` and `removeParentFromChild` rejects with 'Child with id
<id> not found', and the only repository call it has made is that
`findById`. -/
theorem child_mutations_reject_unknown_child {ρ : Type} (r : Repos ρ)
    (id activityId parentId : Col) (data : ChildData) (s : Svc ρ)
    (h : (r.childFindById id s.repo).1 = .ok none) :
    ((ChildService.updateChild r id data s).1
        = .error (JsError.mk1 ("Child with id " ++ id.toStr ++ " not found")) ∧
      (ChildService.updateChild r id data s).2.calls = s.calls ++ [.childFindById id]) ∧
    ((ChildService.deleteChild r id s).1
        = .error (JsError.mk1 ("Child with id " ++ id.toStr ++ " not found")) ∧
      (ChildService.deleteChild r id s).2.calls = s.calls ++ [.childFindById id]) ∧
    ((ChildService.addActivityToChild r id activityId s).1
        = .error (JsError.mk1 ("Child with id " ++ id.toStr ++ " not found")) ∧
      (ChildService.addActivityToChild r id activityId s).2.calls
        = s.calls ++ [.childFindById id]) ∧
    ((ChildService.removeActivityFromChild r id activityId s).1
        = .error (JsError.mk1 ("Child with id " ++ id.toStr ++ " not found")) ∧
      (ChildService.removeActivityFromChild r id activityId s).2.calls
        = s.calls ++ [.childFindById id]) ∧
    ((ChildService.setParentForChild r id parentId s).1
        = .error (JsError.mk1 ("Child with id " ++ id.toStr ++ " not found")) ∧
      (ChildService.setParentForChild r id parentId s).2.calls
        = s.calls ++ [.childFindById id]) ∧
    ((ChildService.removeParentFromChild r id s).1
        = .error (JsError.mk1 ("Child with id " ++ id.toStr ++ " not found")) ∧
      (ChildService.removeParentFromChild r id s).2.calls = s.calls ++ [.childFindById id]) := by
  have hg := ChildService.getChildById_none r id s h
  refine ⟨?_, ?_, ?_, ?_, ?_, ?_⟩
  · simp only [ChildService.updateChild, seq_error _ _ _ _ _ hg, and_self]
  · simp only [ChildService.deleteChild, seq_error _ _ _ _ _ hg, and_self]
  · simp only [ChildService.addActivityToChild, seq_error _ _ _ _ _ hg, and_self]
  · simp only [ChildService.removeActivityFromChild, seq_error _ _ _ _ _ hg, and_self]
  · simp only [ChildService.setParentForChild, seq_error _ _ _ _ _ hg, and_self]
  · simp only [ChildService.removeParentFromChild, seq_error _ _ _ _ _ hg, and_self]

theorem child_mutations_reject_unknown_child_witness :
    (ChildService.deleteChild stubRepos (.num 999) (Svc.init {})).1
      = .error (JsError.mk1 "Child with id 999 not found") ∧
    (ChildService.deleteChild stubRepos (.num 999) (Svc.init {})).2.calls
      = [.childFindById (.num 999)] :=
  (child_mutations_reject_unknown_child stubRepos (.num 999) (.num 1) (.num 7)
    { name := .str "Tom" } (Svc.init {}) rfl).2.1

/-- The activities after pushing a list of activities one by one. -/
theorem Child.foldl_addActivity (activities : List Activity) (c : Child) :
    activities.foldl Child.addActivity c
      = { c with activities := c.activities ++ activities } := by
  induction activities generalizing c with
  | nil => simp
  | cons a rest ih => simp [List.foldl_cons, ih, Child.addActivity]

/-- C30: when `findById` yields the existing child and the data is valid,
`updateChild` calls `childRepository.update` next, with a child that has the
id of the existing child, the name of the data, the parent of the data
(`null` when the data has none) and the activities of the data in order when
the data has an array, the activities of the existing child otherwise; the
outcome of `updateChild` is the outcome of that call. -/
theorem updateChild_hands_over_parent_and_activities {ρ : Type} (r : Repos ρ) (id : Col)
    (data : ChildData) (s : Svc ρ) (existingChild : Child)
    (hfound : (r.childFindById id s.repo).1 = .ok (some existingChild))
    (hvalid : ChildService.validateChildData data = .ok ()) :
    ∃ handed : Child,
      (ChildService.updateChild r id data s).2.calls
        = s.calls ++ [.childFindById id, .childUpdate handed] ∧
      (ChildService.updateChild r id data s).1
        = (r.childUpdate handed (r.childFindById id s.repo).2).1 ∧
      handed.id = existingChild.id ∧
      handed.name = data.name ∧
      handed.parent = data.parent ∧
      handed.activities = data.activities.getD existingChild.activities := by
  refine ⟨ChildService.updatedChild existingChild data, ?_, ?_, ?_, ?_, ?_, ?_⟩
  · simp [ChildService.updateChild, ChildService.getChildById, seq, invoke, hfound, done, check,
      hvalid]
  · simp [ChildService.updateChild, ChildService.getChildById, seq, invoke, hfound, done, check,
      hvalid]
  all_goals
    rcases data with ⟨name, _ | p, _ | acts⟩ <;>
      simp [ChildService.updatedChild, Child.setParent, Child.foldl_addActivity]

theorem updateChild_hands_over_parent_and_activities_witness :
    ∃ handed : Child,
      (ChildService.updateChild stubRepos (.num 1) { name := .str "Tommy", activities := some [riding] }
          (Svc.init { child := some tom })).2.calls
        = (Svc.init ({ child := some tom } : Stub)).calls
          ++ [.childFindById (.num 1), .childUpdate handed] ∧
      (ChildService.updateChild stubRepos (.num 1) { name := .str "Tommy", activities := some [riding] }
          (Svc.init { child := some tom })).1
        = (stubRepos.childUpdate handed (stubRepos.childFindById (.num 1)
            (Svc.init ({ child := some tom } : Stub)).repo).2).1 ∧
      handed.id = tom.id ∧
      handed.name = .str "Tommy" ∧
      handed.parent = none ∧
      handed.activities = [riding] :=
  updateChild_hands_over_parent_and_activities stubRepos (.num 1)
    { name := .str "Tommy", activities := some [riding] } (Svc.init { child := some tom }) tom
    rfl rfl

/-! ## Status codes of the create handlers -/

/-- C28 (evaluation at the failing inputs): the validator of parents rejects
an email without `@` and a phone of nine digits with its two format messages,
and for both the create handler of the parent controller sends 500, while it
sends 400 for a missing email; the service of vehicles raises 'Available seats
must be greater than 0' for a parent object and no seat, the create handler
of the vehicle controller sends 500 for every error, and it sends 500 on the
body `{ parentId: 1, availableSeats: 0 }`; the create handlers of the
activity, child and transport controllers send 400 for a body that their
validator rejects. -/
theorem create_handlers_send_500_for_validation_errors :
    ParentService.validateParentData
        { name := .str "J. Doe", email := .str "j.x.com", phone := .str "0612345678" }
      = .error (JsError.mk1 "Invalid email format, must contain @") ∧
    Controller.createParent stubRepos
        { name := .str "J. Doe", email := .str "j.x.com", phone := .str "0612345678" }
        (Svc.init {}) = 500 ∧
    ParentService.validateParentData
        { name := .str "J. Doe", email := .str "j@x.com", phone := .str "061234567" }
      = .error (JsError.mk1
          "Invalid phone format, must start with 06 or 07 and contain 10 digits") ∧
    Controller.createParent stubRepos
        { name := .str "J. Doe", email := .str "j@x.com", phone := .str "061234567" }
        (Svc.init {}) = 500 ∧
    Controller.createParent stubRepos { name := .str "J. Doe" } (Svc.init {}) = 400 ∧
    (VehicleService.createVehicle stubRepos
        { parent := some { id := .num 1 }, availableSeats := .fin 0 } (Svc.init {})).1
      = .error (JsError.mk1 "Available seats must be greater than 0") ∧
    (∀ e, Controller.statusPlain (.error e : Except JsError (Option Vehicle)) = 500) ∧
    Controller.createVehicle stubRepos { parentId := .num 1, availableSeats := .fin 0 }
      (Svc.init {}) = 500 ∧
    Controller.createActivity stubRepos { name := .str "Swimming" } (Svc.init {}) = 400 ∧
    Controller.createChild stubRepos { name := .str " " } (Svc.init {}) = 400 ∧
    Controller.createTransport stubRepos (some testTransportData) (Svc.init {}) = 400 := by
  refine ⟨rfl, by decide, rfl, by decide, by decide, ?_, fun _ => rfl, rfl, by decide,
    by decide, by decide⟩
  simp [VehicleService.createVehicle, Col.truthy, Num.le, Num.toNumber, fail]

end PiscinePoney
